import Mathlib

/-!
# Trinamic driver monitoring (`Marlin/src/feature/tmc_util.cpp`)

A shallow embedding of the driver-status decoder, the per-axis monitor step
and the poll scheduler, followed by the properties established about them.

Conventions of the embedding:

* `uint32_t`, `uint16_t` and `uint8_t` values are natural numbers, reduced
  modulo `2^32`, `2^16` and `2^8` at the places where the C++ code truncates;
* a C++ conversion of an integer to `bool` is the test `!= 0`;
* the serial console is an append-only list of text chunks, one chunk for
  each `SERIAL_*` call;
* values read from the chip or from the firmware clock are inputs of a step.
-/

namespace TmcUtil

/-! ## Data model -/

/-- The driver-chip families for which `get_driver_data` has an overload. -/
inductive Family
  | TMC2130
  | TMC2208
  | TMC2660
  deriving DecidableEq, Repr

/-- Record `TMC_driver_data` (tmc_util.cpp, lines 54-61). -/
structure TMC_driver_data where
  drv_status : Nat
  is_otpw : Bool
  is_ot : Bool
  is_s2ga : Bool
  is_s2gb : Bool
  is_error : Bool
  deriving DecidableEq, Repr

/-- Truncation of a value to `uint32_t`. -/
def u32 (n : Nat) : Nat := n % 4294967296

/-- Truncation of a value to `uint16_t`. -/
def u16 (n : Nat) : Nat := n % 65536

/-- Truncation of a value to `uint8_t`. -/
def u8 (n : Nat) : Nat := n % 256

/-- The C++ conversion of an integer value to `bool`. -/
def toBool (n : Nat) : Bool := n != 0

/-- The C++ expression `a | b | c | d` on four `bool` operands, converted
back to `bool`: the operands are promoted to `int`, combined bitwise, and the
result is tested against zero. -/
def boolOr4 (a b c d : Bool) : Bool :=
  toBool (a.toNat ||| b.toNat ||| c.toNat ||| d.toNat)

/-! ## Status decoders (tmc_util.cpp, lines 65-82, 99-114, 122-134)

The local `TMC_driver_data data;` is declared without an initialiser, so the
decoders take the indeterminate prior contents `data` of that local and
overwrite the fields the source assigns. `raw` is the value returned by
`st.DRV_STATUS()` (`st.DRVSTATUS()` for the TMC2660). -/

/-- Decoder `get_driver_data(TMC2130Stepper&)`. -/
def get_driver_data_TMC2130 (raw : Nat) (data : TMC_driver_data) : TMC_driver_data :=
  let OTPW_bm := 0x4000000
  let OTPW_bp := 26
  let OT_bm := 0x2000000
  let OT_bp := 25
  let S2GA_bp := 27
  let S2GB_bp := 28
  let data := { data with drv_status := u32 raw }
  let data := { data with is_otpw := toBool ((data.drv_status &&& OTPW_bm) >>> OTPW_bp) }
  let data := { data with is_ot := toBool ((data.drv_status &&& OT_bm) >>> OT_bp) }
  let data := { data with is_s2ga := toBool ((data.drv_status >>> S2GA_bp) &&& 0b1) }
  let data := { data with is_s2gb := toBool ((data.drv_status >>> S2GB_bp) &&& 0b1) }
  { data with is_error := boolOr4 data.is_otpw data.is_ot data.is_s2ga data.is_s2gb }

/-- Decoder `get_driver_data(TMC2208Stepper&)`. -/
def get_driver_data_TMC2208 (raw : Nat) (data : TMC_driver_data) : TMC_driver_data :=
  let OTPW_bm := 0b1
  let OTPW_bp := 0
  let OT_bm := 0b10
  let OT_bp := 1
  let S2GA_bp := 2
  let S2GB_bp := 3
  let data := { data with drv_status := u32 raw }
  let data := { data with is_otpw := toBool ((data.drv_status &&& OTPW_bm) >>> OTPW_bp) }
  let data := { data with is_ot := toBool ((data.drv_status &&& OT_bm) >>> OT_bp) }
  let data := { data with is_s2ga := toBool ((data.drv_status >>> S2GA_bp) &&& 0b1) }
  let data := { data with is_s2gb := toBool ((data.drv_status >>> S2GB_bp) &&& 0b1) }
  { data with is_error := boolOr4 data.is_otpw data.is_ot data.is_s2ga data.is_s2gb }

/-- Decoder `get_driver_data(TMC2660Stepper&)`. The fields `is_s2ga` and
`is_s2gb` are never assigned and keep their indeterminate contents. -/
def get_driver_data_TMC2660 (raw : Nat) (data : TMC_driver_data) : TMC_driver_data :=
  let OTPW_bm := 0x4
  let OTPW_bp := 2
  let OT_bm := 0x2
  let OT_bp := 1
  let DRIVER_ERROR_bm := u8 0x1E
  let data := { data with drv_status := u32 raw }
  let data := { data with is_otpw := toBool ((data.drv_status &&& OTPW_bm) >>> OTPW_bp) }
  let data := { data with is_ot := toBool ((data.drv_status &&& OT_bm) >>> OT_bp) }
  { data with is_error := toBool (data.drv_status &&& DRIVER_ERROR_bm) }

/-- Overload resolution of `get_driver_data` on the stepper type. -/
def get_driver_data (fam : Family) (raw : Nat) (data : TMC_driver_data) : TMC_driver_data :=
  match fam with
  | .TMC2130 => get_driver_data_TMC2130 raw data
  | .TMC2208 => get_driver_data_TMC2208 raw data
  | .TMC2660 => get_driver_data_TMC2660 raw data

/-! ## Axis labels (tmc_util.cpp, lines 264-272) -/

/-- Modelled from the spec: the enumeration `TMC_AxisEnum` is declared in
`tmc_util.h`, which is not among the sources; the spec names the tags
X, Y, Z, X2, Y2, Z2, E0 to E4, and the enumerators are numbered in the order
of the `tmc_axes` table they index. -/
inductive TMC_AxisEnum
  | TMC_X | TMC_Y | TMC_Z | TMC_X2 | TMC_Y2 | TMC_Z2
  | TMC_E0 | TMC_E1 | TMC_E2 | TMC_E3 | TMC_E4
  deriving DecidableEq, Repr

/-- The integer value of an enumerator, used as the index into `tmc_axes`. -/
def TMC_AxisEnum.toNat : TMC_AxisEnum → Nat
  | .TMC_X => 0 | .TMC_Y => 1 | .TMC_Z => 2
  | .TMC_X2 => 3 | .TMC_Y2 => 4 | .TMC_Z2 => 5
  | .TMC_E0 => 6 | .TMC_E1 => 7 | .TMC_E2 => 8 | .TMC_E3 => 9 | .TMC_E4 => 10

/-- The table `tmc_axes` of `_tmc_say_axis`. -/
def tmc_axes : List String :=
  ["X", "Y", "Z", "X2", "Y2", "Z2", "E0", "E1", "E2", "E3", "E4"]

/-- Function `_tmc_say_axis`: the text it sends to the serial console. -/
def _tmc_say_axis (axis : TMC_AxisEnum) : List String :=
  [tmc_axes.getD axis.toNat ""]

/-! ## Per-axis monitor step (tmc_util.cpp, lines 137-205) -/

/-- Compile-time configuration read by the monitor, together with the one
external pure function it calls. `toDigital value with_days` is the text
`duration_t::toDigital` writes for an elapsed time of `value` seconds. -/
structure Config where
  STOP_ON_ERROR : Bool
  TMC_DEBUG : Bool
  ULTIPANEL : Bool
  SENSORLESS_HOMING : Bool
  CURRENT_STEP_DOWN : Nat
  REPORT_CURRENT_CHANGE : Bool
  toDigital : Nat → Bool → String

/-- The part of a stepper object `st` that the monitor reads back or writes:
the present current setting in milliamps returned by `st.getMilliAmps()`
(a `uint16_t`), the latched flag `st.flag_otpw`, and the two `st.stored`
fields written by `update_lcd_data`. -/
structure Stepper where
  val_mA : Nat
  flag_otpw : Bool
  stored_sg_result : Nat
  stored_cs_actual : Nat
  deriving DecidableEq, Repr

/-- Everything one call of the per-axis monitor reads from outside: the chip
registers and pins, the print-job timer, the indeterminate contents of the
uninitialised local `data`, and the text `tmc_report_all()` would print. -/
structure PollInput where
  DRV_STATUS : Nat
  PWM_SCALE : Nat
  pwm_scale_sum : Nat
  status_response : Nat
  GSTAT : Nat
  isEnabled : Bool
  elapsed : Nat
  stack : TMC_driver_data
  report_all : List String
  deriving DecidableEq, Repr

/-- The vendor setter `st.rms_current(mA)`: the argument is converted to the
`uint16_t` parameter and becomes the present milliamp setting. -/
def rms_current (st : Stepper) (mA : Int) : Stepper :=
  { st with val_mA := (mA % 65536).toNat }

/-- Overloads of `update_lcd_data`; there is none for the TMC2660. -/
def update_lcd_data (cfg : Config) (fam : Family) (st : Stepper) (drvstatus : Nat) : Stepper :=
  match fam with
  | .TMC2130 =>
    let st := if cfg.SENSORLESS_HOMING then
        { st with stored_sg_result := drvstatus &&& 0x3FF } else st
    { st with stored_cs_actual := (drvstatus >>> 16) &&& 0x1F }
  | .TMC2208 => { st with stored_cs_actual := (drvstatus >>> 16) &&& 0x1F }
  | .TMC2660 => st

/-- Overloads of `get_pwm_scale`, returning a `uint32_t`. -/
def get_pwm_scale (fam : Family) (inp : PollInput) : Nat :=
  match fam with
  | .TMC2130 => u32 inp.PWM_SCALE
  | .TMC2208 => u32 inp.pwm_scale_sum
  | .TMC2660 => 0

/-- Overloads of `get_status_response`, returning a `uint8_t`. -/
def get_status_response (fam : Family) (inp : PollInput) (drv_status : Nat) : Nat :=
  match fam with
  | .TMC2130 => u8 (u8 inp.status_response &&& 0xF)
  | .TMC2208 =>
    let gstat := u8 inp.GSTAT
    let response := 0
    let response := u8 (response ||| ((drv_status >>> (31 - 3)) &&& 0b1000))
    let response := u8 (response ||| (gstat &&& 0b11))
    response
  | .TMC2660 => 0

/-- The text of `SERIAL_PRINT(n, DEC)` and of `SERIAL_ECHO` on an integer. -/
def printDEC (n : Nat) : String := toString n

/-- The text of `SERIAL_PRINT(n, BIN)`. -/
def printBIN (n : Nat) : String := String.mk (Nat.toDigits 2 n)

/-- What a call of the per-axis `monitor_tmc_driver` ends in. `killed` stands
for a call that reached `kill`, with the serial output up to that point and
the message passed to `kill`; `returned` carries the stepper object, the
counter `otpw_cnt` and the serial output of the call. -/
inductive Outcome
  | killed (out : List String) (lcd_error : String)
  | returned (st : Stepper) (otpw_cnt : Nat) (out : List String)
  deriving DecidableEq, Repr

/-- Modelled from the spec: `kill` is defined outside these sources; the spec
describes it as an unconditional, unrecoverable process halt with no recovery
path, so it never returns and nothing of the calling function runs after
it. `out` is the serial output of the caller so far. -/
def kill (out : List String) (lcd_error : String) : Outcome :=
  Outcome.killed out lcd_error

/-- The serial output of the `STOP_ON_ERROR` block before `kill`. -/
def error_report (cfg : Config) (axis : TMC_AxisEnum) (data : TMC_driver_data)
    (inp : PollInput) : List String :=
  ["\n"] ++ _tmc_say_axis axis ++ [" driver error detected:\n"]
    ++ (if data.is_ot then ["overtemperature\n"] else [])
    ++ (if data.is_s2ga then ["short to ground (coil A)\n"] else [])
    ++ (if data.is_s2gb then ["short to ground (coil B)\n"] else [])
    ++ (if cfg.TMC_DEBUG then inp.report_all else [])

/-- The single fault code of the reporting block (lines 198-202). -/
def fault_code (data : TMC_driver_data) (otpw_cnt : Nat) (flag_otpw : Bool) : List String :=
  if data.is_error then ["E"]
  else if data.is_ot then ["O"]
  else if data.is_otpw then ["W"]
  else if otpw_cnt > 0 then [printDEC otpw_cnt]
  else if flag_otpw then ["F"]
  else []

/-- Template `monitor_tmc_driver<TMC>(st, axis, otpw_cnt)`; `report_tmc_status`
is the global flag of that name. -/
def monitor_tmc_driver (cfg : Config) (report_tmc_status : Bool) (fam : Family)
    (st : Stepper) (axis : TMC_AxisEnum) (otpw_cnt : Nat) (inp : PollInput) : Outcome :=
  let data := get_driver_data fam inp.DRV_STATUS inp.stack
  let st := if cfg.ULTIPANEL then update_lcd_data cfg fam st data.drv_status else st
  if cfg.STOP_ON_ERROR && data.is_error then
    kill (error_report cfg axis data inp) "Driver error"
  else
    -- Report if a warning was triggered
    let out1 :=
      if data.is_otpw && otpw_cnt == 0 then
        let has_days := decide (inp.elapsed > 60 * 60 * 24)
        ["\n", cfg.toDigital inp.elapsed has_days, ": "] ++ _tmc_say_axis axis
          ++ [" driver overtemperature warning! (", printDEC st.val_mA, "mA)\n"]
      else []
    -- Decrease current (block present when CURRENT_STEP_DOWN > 0)
    let fires := decide (cfg.CURRENT_STEP_DOWN > 0)
      && (data.is_otpw && inp.isEnabled && decide (otpw_cnt > 4))
    let st := if fires then
        rms_current st ((st.val_mA : Int) - (cfg.CURRENT_STEP_DOWN : Int)) else st
    let out2 :=
      if fires && cfg.REPORT_CURRENT_CHANGE then
        _tmc_say_axis axis ++ [" current decreased to " ++ printDEC st.val_mA ++ "\n"]
      else []
    let otpw_cnt :=
      if data.is_otpw then u8 (otpw_cnt + 1)
      else if otpw_cnt > 0 then 0 else otpw_cnt
    let st := if data.is_otpw then { st with flag_otpw := true } else st
    let out3 :=
      if report_tmc_status then
        _tmc_say_axis axis ++ [":" ++ printDEC (get_pwm_scale fam inp), " |0b",
          printBIN (get_status_response fam inp data.drv_status), "| "]
          ++ fault_code data otpw_cnt st.flag_otpw ++ ["\t"]
      else []
    Outcome.returned st otpw_cnt (out1 ++ out2 ++ out3)

/-- Successive polls of one axis, each with its own inputs: the outcomes of
the calls that are made. No call follows one that reached `kill`. -/
def run_polls (cfg : Config) (report_tmc_status : Bool) (fam : Family) (axis : TMC_AxisEnum) :
    Stepper → Nat → List PollInput → List Outcome
  | _, _, [] => []
  | st, otpw_cnt, inp :: rest =>
    match monitor_tmc_driver cfg report_tmc_status fam st axis otpw_cnt inp with
    | Outcome.killed out msg => [Outcome.killed out msg]
    | Outcome.returned st1 cnt1 out =>
      Outcome.returned st1 cnt1 out :: run_polls cfg report_tmc_status fam axis st1 cnt1 rest

/-- Whether an outcome is a call that reached `kill`. -/
def Outcome.isKilled : Outcome → Bool
  | .killed _ _ => true
  | .returned _ _ _ => false

/-- The counter after a call that returned. -/
def Outcome.counter : Outcome → Option Nat
  | .killed _ _ => none
  | .returned _ cnt _ => some cnt

/-- The milliamp setting after a call that returned. -/
def Outcome.current : Outcome → Option Nat
  | .killed _ _ => none
  | .returned st _ _ => some st.val_mA

/-- The serial output of a call. -/
def Outcome.output : Outcome → List String
  | .killed out _ => out
  | .returned _ _ out => out

/-- State of one monitored axis between polls: still running with its stepper
object and counter, or halted by `kill`. -/
inductive AxisState
  | running (st : Stepper) (otpw_cnt : Nat)
  | halted
  deriving DecidableEq, Repr

/-- One poll taken from a state of the axis; no poll is taken once halted. -/
def poll_step (cfg : Config) (report_tmc_status : Bool) (fam : Family) (axis : TMC_AxisEnum) :
    AxisState → PollInput → Option AxisState
  | AxisState.halted, _ => none
  | AxisState.running st otpw_cnt, inp =>
    match monitor_tmc_driver cfg report_tmc_status fam st axis otpw_cnt inp with
    | Outcome.killed _ _ => some AxisState.halted
    | Outcome.returned st1 cnt1 _ => some (AxisState.running st1 cnt1)

/-- The step relation of one axis: some poll leads from `s` to `t`. -/
def Step (cfg : Config) (report_tmc_status : Bool) (fam : Family) (axis : TMC_AxisEnum)
    (s t : AxisState) : Prop :=
  ∃ inp, poll_step cfg report_tmc_status fam axis s inp = some t

/-! ## Poll scheduler (tmc_util.cpp, lines 207-260) -/

/-- The stepper objects `stepperX` to `stepperE4` named in `monitor_tmc_driver()`. -/
inductive StepperId
  | X | Y | Z | X2 | Y2 | Z2 | E0 | E1 | E2 | E3 | E4
  deriving DecidableEq, Repr

/-- Compile-time description of the machine: the value of `HAS_HW_COMMS(ST)`
for each stepper, the flag `IS_TRAMS`, and the chip family of each stepper. -/
structure Machine where
  HAS_HW_COMMS : StepperId → Bool
  IS_TRAMS : Bool
  family : StepperId → Family

/-- The eleven guarded calls of `monitor_tmc_driver()` in source order: the
stepper object polled, the axis label passed, and whether the guard of the
call also has the alternative `ENABLED(IS_TRAMS)`. -/
def monitor_calls : List (StepperId × TMC_AxisEnum × Bool) :=
  [ (StepperId.X, TMC_AxisEnum.TMC_X, true),
    (StepperId.Y, TMC_AxisEnum.TMC_Y, true),
    (StepperId.Z, TMC_AxisEnum.TMC_Z, true),
    (StepperId.X2, TMC_AxisEnum.TMC_X, false),
    (StepperId.Y2, TMC_AxisEnum.TMC_Y, false),
    (StepperId.Z2, TMC_AxisEnum.TMC_Z, false),
    (StepperId.E0, TMC_AxisEnum.TMC_E0, true),
    (StepperId.E1, TMC_AxisEnum.TMC_E1, false),
    (StepperId.E2, TMC_AxisEnum.TMC_E2, false),
    (StepperId.E3, TMC_AxisEnum.TMC_E3, false),
    (StepperId.E4, TMC_AxisEnum.TMC_E4, false) ]

/-- The state kept between calls of `monitor_tmc_driver()`: the static due
time `next_cOT`, the stepper objects, and the static counters `x_otpw_cnt`
to `e4_otpw_cnt`. -/
structure Monitor where
  next_cOT : Nat
  stepper : StepperId → Stepper
  otpw_cnt : StepperId → Nat

/-- What one call of `monitor_tmc_driver()` reads from outside: the two
readings of `millis()` (in the gate, and when the due time is stored), the
global `report_tmc_status`, and the inputs of each per-axis poll. -/
structure CallInput where
  now1 : Nat
  now2 : Nat
  report_tmc_status : Bool
  inp : StepperId → PollInput

/-- What a call of `monitor_tmc_driver()` ends in; `killed` carries the state
at the moment `kill` was reached. The last component `polled` records the
calls made: the stepper objects on which `monitor_tmc_driver(st, axis, cnt)`
was called during this call, in order. -/
inductive CallResult
  | killed (m : Monitor) (out : List String) (lcd_error : String) (polled : List StepperId)
  | returned (m : Monitor) (out : List String) (polled : List StepperId)

/-- Modelled from the spec: the macro `ELAPSED` is defined outside these
sources; the spec has the millisecond clock compared against the stored due
timestamp. As for the firmware's `millis_t` comparisons, the 32-bit
difference `NOW - SOON` is read as a signed value and the macro holds when
that value is not negative. -/
def ELAPSED (NOW SOON : Nat) : Bool :=
  decide (u32 (u32 NOW + 4294967296 - u32 SOON) < 2147483648)

/-- The guarded per-axis calls of `monitor_tmc_driver()`, run in order on the
state `m`, appending to the serial output `out` and, for each call of
`monitor_tmc_driver(st, axis, cnt)` that is made, the stepper polled to
`polled`. -/
def monitor_axes (cfg : Config) (mach : Machine) (c : CallInput) :
    List (StepperId × TMC_AxisEnum × Bool) → Monitor → List String → List StepperId
      → CallResult
  | [], m, out, polled => CallResult.returned m out polled
  | (id, axis, trams) :: rest, m, out, polled =>
    if mach.HAS_HW_COMMS id || (trams && mach.IS_TRAMS) then
      match monitor_tmc_driver cfg c.report_tmc_status (mach.family id) (m.stepper id) axis
          (m.otpw_cnt id) (c.inp id) with
      | Outcome.killed o msg => CallResult.killed m (out ++ o) msg (polled ++ [id])
      | Outcome.returned st1 cnt1 o =>
        monitor_axes cfg mach c rest
          { m with
            stepper := fun j => if j = id then st1 else m.stepper j
            otpw_cnt := fun j => if j = id then cnt1 else m.otpw_cnt j }
          (out ++ o) (polled ++ [id])
    else monitor_axes cfg mach c rest m out polled

/-- Function `monitor_tmc_driver()` (the scheduler, without arguments). -/
def monitor_tmc_driver_all (cfg : Config) (mach : Machine) (m : Monitor) (c : CallInput) :
    CallResult :=
  if ELAPSED c.now1 m.next_cOT then
    let m := { m with next_cOT := u32 (u32 c.now2 + 500) }
    match monitor_axes cfg mach c monitor_calls m [] [] with
    | CallResult.killed m1 out msg polled => CallResult.killed m1 out msg polled
    | CallResult.returned m1 out polled =>
      CallResult.returned m1 (out ++ (if c.report_tmc_status then ["\n"] else [])) polled
  else CallResult.returned m [] []

/-- Successive calls of `monitor_tmc_driver()`: for each call during which
at least one per-axis poll was made (its record `polled` is not empty), the
clock reading of its gate and the due time held in the state it ends in. No
call follows one that reached `kill`. -/
def poll_log (cfg : Config) (mach : Machine) : Monitor → List CallInput → List (Nat × Nat)
  | _, [] => []
  | m, c :: rest =>
    match monitor_tmc_driver_all cfg mach m c with
    | CallResult.killed m1 _ _ polled =>
      if polled.isEmpty then [] else [(c.now1, m1.next_cOT)]
    | CallResult.returned m1 _ polled =>
      (if polled.isEmpty then [] else [(c.now1, m1.next_cOT)])
        ++ poll_log cfg mach m1 rest

/-- Clock readings of a sequence of calls that never go back and stay clear
of the 32-bit wrap: every reading is at least `lo`, the readings are
non-decreasing, and adding the interval to a reading does not overflow. -/
def clock_ok : Nat → List CallInput → Bool
  | _, [] => true
  | lo, c :: rest =>
    decide (lo ≤ c.now1) && decide (c.now1 ≤ c.now2)
      && decide (c.now2 + 500 < 4294967296) && clock_ok c.now2 rest

/-- The state a call of `monitor_tmc_driver()` ends in. -/
def CallResult.state : CallResult → Monitor
  | CallResult.killed m _ _ _ => m
  | CallResult.returned m _ _ => m

/-- The steppers polled during a call of `monitor_tmc_driver()`, in order. -/
def CallResult.polled : CallResult → List StepperId
  | CallResult.killed _ _ _ polled => polled
  | CallResult.returned _ _ polled => polled

/-- The spacing relation between two entries of a poll log: the later call
ran at least 500 ms after the earlier one. -/
def spaced (a b : Nat × Nat) : Prop := a.1 + 500 ≤ b.1

/-- The initial value of the global `report_tmc_status` (tmc_util.cpp, line 43). -/
def report_tmc_status_initial : Bool := false

/-- The latched flag `st.flag_otpw` after a call that returned. -/
def Outcome.flag : Outcome → Option Bool
  | Outcome.killed _ _ => none
  | Outcome.returned st _ _ => some st.flag_otpw

/-! ## Diagnostic dumps (tmc_util.cpp, lines 324-372 and 495-520) -/

/-- The text of `SERIAL_PRINT(n, HEX)`: the digits of `n` in base 16, most
significant first, with the letters `A` to `F` in upper case. -/
def printHEX (n : Nat) : String := String.mk ((Nat.toDigits 16 n).map Char.toUpper)

/-- The loop `for (int B = 24; B >= 8; B -= 8)` of `print_32b_hex`, entered
with `B = 8 * k`: each round prints the nibble at bit `B + 4`, the nibble at
bit `B` and a colon. -/
def print_32b_hex_loop (drv_status : Nat) : Nat → List String
  | 0 => []
  | k + 1 =>
    [printHEX (u8 (drv_status >>> (8 * (k + 1) + 4)) &&& 0xF),
      printHEX (u8 (drv_status >>> (8 * (k + 1))) &&& 0xF), ":"]
      ++ print_32b_hex_loop drv_status k

/-- Function `print_32b_hex` on a `uint32_t` argument. -/
def print_32b_hex (drv_status : Nat) : List String :=
  print_32b_hex_loop drv_status 3
    ++ [printHEX (u8 (drv_status >>> 4) &&& 0xF), printHEX (u8 drv_status &&& 0xF), "\n"]

/-- Enumeration `TMC_drv_status_enum` (lines 324-345). -/
inductive TMC_drv_status_enum
  | TMC_DRV_CODES | TMC_STST | TMC_OLB | TMC_OLA | TMC_S2GB | TMC_S2GA | TMC_DRV_OTPW
  | TMC_OT | TMC_STALLGUARD | TMC_DRV_CS_ACTUAL | TMC_FSACTIVE | TMC_SG_RESULT
  | TMC_DRV_STATUS_HEX | TMC_T157 | TMC_T150 | TMC_T143 | TMC_T120 | TMC_STEALTH
  | TMC_S2VSB | TMC_S2VSA
  deriving DecidableEq, Repr

/-- What `tmc_parse_drv_status` reads from one chip: the accessors `stst()`,
`olb()` and so on of the stepper object, and the raw `DRV_STATUS()` word. -/
structure DrvStatusRead where
  DRV_STATUS : Nat
  stst : Bool
  olb : Bool
  ola : Bool
  s2gb : Bool
  s2ga : Bool
  otpw : Bool
  ot : Bool
  cs_actual : Nat
  stallguard : Bool
  sg_result : Nat
  fsactive : Bool
  t157 : Bool
  t150 : Bool
  t143 : Bool
  t120 : Bool
  deriving DecidableEq, Repr

/-- The chip-specific overloads `tmc_parse_drv_status(st, i)` (lines 383-391,
404-413, 417). -/
def tmc_parse_drv_status_chip (fam : Family) (rd : DrvStatusRead)
    (i : TMC_drv_status_enum) : List String :=
  match fam, i with
  | Family.TMC2130, TMC_drv_status_enum.TMC_STALLGUARD => if rd.stallguard then ["X"] else []
  | Family.TMC2130, TMC_drv_status_enum.TMC_SG_RESULT => [printDEC rd.sg_result]
  | Family.TMC2130, TMC_drv_status_enum.TMC_FSACTIVE => if rd.fsactive then ["X"] else []
  | Family.TMC2130, TMC_drv_status_enum.TMC_DRV_CS_ACTUAL => [printDEC rd.cs_actual]
  | Family.TMC2208, TMC_drv_status_enum.TMC_T157 => if rd.t157 then ["X"] else []
  | Family.TMC2208, TMC_drv_status_enum.TMC_T150 => if rd.t150 then ["X"] else []
  | Family.TMC2208, TMC_drv_status_enum.TMC_T143 => if rd.t143 then ["X"] else []
  | Family.TMC2208, TMC_drv_status_enum.TMC_T120 => if rd.t120 then ["X"] else []
  | Family.TMC2208, TMC_drv_status_enum.TMC_DRV_CS_ACTUAL => [printDEC rd.cs_actual]
  | _, _ => []

/-- Template `tmc_parse_drv_status<TMC>(st, axis, i)` (lines 495-520). -/
def tmc_parse_drv_status (fam : Family) (rd : DrvStatusRead) (axis : TMC_AxisEnum)
    (i : TMC_drv_status_enum) : List String :=
  ["\t"] ++
    (match i with
    | TMC_drv_status_enum.TMC_DRV_CODES => _tmc_say_axis axis
    | TMC_drv_status_enum.TMC_STST => if rd.stst then ["X"] else []
    | TMC_drv_status_enum.TMC_OLB => if rd.olb then ["X"] else []
    | TMC_drv_status_enum.TMC_OLA => if rd.ola then ["X"] else []
    | TMC_drv_status_enum.TMC_S2GB => if rd.s2gb then ["X"] else []
    | TMC_drv_status_enum.TMC_S2GA => if rd.s2ga then ["X"] else []
    | TMC_drv_status_enum.TMC_DRV_OTPW => if rd.otpw then ["X"] else []
    | TMC_drv_status_enum.TMC_OT => if rd.ot then ["X"] else []
    | TMC_drv_status_enum.TMC_DRV_CS_ACTUAL => [printDEC rd.cs_actual]
    | TMC_drv_status_enum.TMC_DRV_STATUS_HEX =>
      let drv_status := u32 rd.DRV_STATUS
      ["\t"] ++ _tmc_say_axis axis ++ [" = 0x"] ++ print_32b_hex drv_status
        ++ (if drv_status == 0xFFFFFFFF || drv_status == 0 then ["\t Bad response!"] else [])
        ++ ["\n"]
    | _ => tmc_parse_drv_status_chip fam rd i)

/-! ## Connection test (tmc_util.cpp, lines 852-863) -/

/-- Template `test_connection<TMC>(st, axis)`; `result` is the value returned
by the vendor self-test `st.test_connection()`. The `switch` has the cases
0, 1 and 2 and no default. -/
def test_connection (axis : TMC_AxisEnum) (result : Nat) : List String :=
  ["Testing "] ++ _tmc_say_axis axis ++ [" connection..."]
    ++ (match result with
        | 0 => ["OK"]
        | 1 => ["Error(0xFFFFFFFF)"]
        | 2 => ["Error(0x0)"]
        | _ => [])
    ++ ["\n"]

/-! ## Register dump (tmc_util.cpp, lines 346-362 and 680-797) -/

/-- Enumeration `TMC_get_registers_enum` (lines 346-362). -/
inductive TMC_get_registers_enum
  | TMC_AXIS_CODES | TMC_GET_GCONF | TMC_GET_IHOLD_IRUN | TMC_GET_GSTAT | TMC_GET_IOIN
  | TMC_GET_TPOWERDOWN | TMC_GET_TSTEP | TMC_GET_TPWMTHRS | TMC_GET_TCOOLTHRS
  | TMC_GET_THIGH | TMC_GET_CHOPCONF | TMC_GET_COOLCONF | TMC_GET_PWMCONF
  | TMC_GET_PWM_SCALE | TMC_GET_DRV_STATUS
  deriving DecidableEq, Repr

/-- Modelled from the spec: the enumeration `AxisEnum` and the loop macro
`LOOP_XYZE` are declared outside these sources; the spec has the dump
filtered by an axis-letter argument, and the code indexes `print_axis` by
`X_AXIS`, `Y_AXIS`, `Z_AXIS` and `E_AXIS`. -/
inductive AxisEnum
  | X_AXIS | Y_AXIS | Z_AXIS | E_AXIS
  deriving DecidableEq, Repr

/-- The index range of `LOOP_XYZE`, in order. -/
def XYZE : List AxisEnum :=
  [AxisEnum.X_AXIS, AxisEnum.Y_AXIS, AxisEnum.Z_AXIS, AxisEnum.E_AXIS]

/-- Compile-time description of the machine for the dumps: the value of
`ST_IS_TRINAMIC` for each stepper and the chip family of each stepper. -/
structure Trinamic where
  IS_TRINAMIC : StepperId → Bool
  family : StepperId → Family

/-- The chip-specific overloads `tmc_get_registers(st, axis, i)` (lines
681-702 and 705-724); `reg i` is the value read from the register that `i`
names. There is no overload for the TMC2660. -/
def tmc_get_registers_chip (fam : Family) (reg : TMC_get_registers_enum → Nat)
    (axis : TMC_AxisEnum) (i : TMC_get_registers_enum) : List String :=
  match fam with
  | Family.TMC2130 =>
    (match i with
      | TMC_get_registers_enum.TMC_AXIS_CODES => ["\t"] ++ _tmc_say_axis axis
      | _ => ["0x"] ++ print_32b_hex (u32 (reg i)))
      ++ ["\t"]
  | Family.TMC2208 =>
    (match i with
      | TMC_get_registers_enum.TMC_AXIS_CODES => ["\t"] ++ _tmc_say_axis axis
      | TMC_get_registers_enum.TMC_GET_TCOOLTHRS => ["-\t"]
      | TMC_get_registers_enum.TMC_GET_THIGH => ["-\t"]
      | TMC_get_registers_enum.TMC_GET_COOLCONF => ["-\t"]
      | _ => ["0x"] ++ print_32b_hex (u32 (reg i)))
      ++ ["\t"]
  | Family.TMC2660 => []

/-- One guarded call `tmc_get_registers(stepperID, TMC_ID, i)` of the
five-argument overload: present when `ID_IS_TRINAMIC`. -/
def tmc_get_registers_guarded (tm : Trinamic)
    (regs : StepperId → TMC_get_registers_enum → Nat)
    (id : StepperId) (axis : TMC_AxisEnum) (i : TMC_get_registers_enum) : List String :=
  if tm.IS_TRINAMIC id then tmc_get_registers_chip (tm.family id) (regs id) axis i else []

/-- The text printed for the group of the letter X in a row. -/
def group_x (tm : Trinamic) (regs : StepperId → TMC_get_registers_enum → Nat)
    (i : TMC_get_registers_enum) : List String :=
  tmc_get_registers_guarded tm regs StepperId.X TMC_AxisEnum.TMC_X i
    ++ tmc_get_registers_guarded tm regs StepperId.X2 TMC_AxisEnum.TMC_X2 i

/-- The text printed for the group of the letter Y in a row. -/
def group_y (tm : Trinamic) (regs : StepperId → TMC_get_registers_enum → Nat)
    (i : TMC_get_registers_enum) : List String :=
  tmc_get_registers_guarded tm regs StepperId.Y TMC_AxisEnum.TMC_Y i
    ++ tmc_get_registers_guarded tm regs StepperId.Y2 TMC_AxisEnum.TMC_Y2 i

/-- The text printed for the group of the letter Z in a row. -/
def group_z (tm : Trinamic) (regs : StepperId → TMC_get_registers_enum → Nat)
    (i : TMC_get_registers_enum) : List String :=
  tmc_get_registers_guarded tm regs StepperId.Z TMC_AxisEnum.TMC_Z i
    ++ tmc_get_registers_guarded tm regs StepperId.Z2 TMC_AxisEnum.TMC_Z2 i

/-- The text printed for the group of the letter E in a row. -/
def group_e (tm : Trinamic) (regs : StepperId → TMC_get_registers_enum → Nat)
    (i : TMC_get_registers_enum) : List String :=
  tmc_get_registers_guarded tm regs StepperId.E0 TMC_AxisEnum.TMC_E0 i
    ++ tmc_get_registers_guarded tm regs StepperId.E1 TMC_AxisEnum.TMC_E1 i
    ++ tmc_get_registers_guarded tm regs StepperId.E2 TMC_AxisEnum.TMC_E2 i
    ++ tmc_get_registers_guarded tm regs StepperId.E3 TMC_AxisEnum.TMC_E3 i
    ++ tmc_get_registers_guarded tm regs StepperId.E4 TMC_AxisEnum.TMC_E4 i

/-- The overload `tmc_get_registers(i, print_x, print_y, print_z, print_e)`
(lines 727-774): one row of the dump. -/
def tmc_get_registers_row (tm : Trinamic) (regs : StepperId → TMC_get_registers_enum → Nat)
    (i : TMC_get_registers_enum) (print_x print_y print_z print_e : Bool) : List String :=
  (if print_x then group_x tm regs i else [])
    ++ (if print_y then group_y tm regs i else [])
    ++ (if print_z then group_z tm regs i else [])
    ++ (if print_e then group_e tm regs i else [])
    ++ ["\n"]

/-- The loop `LOOP_XYZE(i) if (parser.seen(axis_codes[i]))` of line 779, run
over the remaining indices on the pair (`print_axis`, `print_all`); `seen i`
is the value of `parser.seen(axis_codes[i])`. -/
def print_axis_loop (seen : AxisEnum → Bool) :
    List AxisEnum → (AxisEnum → Bool) × Bool → (AxisEnum → Bool) × Bool
  | [], s => s
  | i :: rest, (print_axis, print_all) =>
    if seen i then
      print_axis_loop seen rest (fun j => if j = i then true else print_axis j, false)
    else print_axis_loop seen rest (print_axis, print_all)

/-- The rows of `tmc_get_registers()` in source order: label and item. -/
def register_rows : List (String × TMC_get_registers_enum) :=
  [ ("\t", TMC_get_registers_enum.TMC_AXIS_CODES),
    ("GCONF\t\t", TMC_get_registers_enum.TMC_GET_GCONF),
    ("IHOLD_IRUN\t", TMC_get_registers_enum.TMC_GET_IHOLD_IRUN),
    ("GSTAT\t\t", TMC_get_registers_enum.TMC_GET_GSTAT),
    ("IOIN\t\t", TMC_get_registers_enum.TMC_GET_IOIN),
    ("TPOWERDOWN\t", TMC_get_registers_enum.TMC_GET_TPOWERDOWN),
    ("TSTEP\t\t", TMC_get_registers_enum.TMC_GET_TSTEP),
    ("TPWMTHRS\t", TMC_get_registers_enum.TMC_GET_TPWMTHRS),
    ("TCOOLTHRS\t", TMC_get_registers_enum.TMC_GET_TCOOLTHRS),
    ("THIGH\t\t", TMC_get_registers_enum.TMC_GET_THIGH),
    ("CHOPCONF\t", TMC_get_registers_enum.TMC_GET_CHOPCONF),
    ("COOLCONF\t", TMC_get_registers_enum.TMC_GET_COOLCONF),
    ("PWMCONF\t", TMC_get_registers_enum.TMC_GET_PWMCONF),
    ("PWM_SCALE\t", TMC_get_registers_enum.TMC_GET_PWM_SCALE),
    ("DRV_STATUS\t", TMC_get_registers_enum.TMC_GET_DRV_STATUS) ]

/-- The four flags that `TMC_GET_REG` passes to every row: `print_axis[i] ||
print_all` for X, Y, Z and E after the loop of line 779. The array
`print_axis` is declared without an initialiser, so `stack` stands for its
indeterminate prior contents. -/
def print_flags (seen : AxisEnum → Bool) (stack : AxisEnum → Bool) (a : AxisEnum) : Bool :=
  let s := print_axis_loop seen XYZE (stack, true)
  s.1 a || s.2

/-- Function `tmc_get_registers()` (lines 776-797). -/
def tmc_get_registers (tm : Trinamic) (regs : StepperId → TMC_get_registers_enum → Nat)
    (seen : AxisEnum → Bool) (stack : AxisEnum → Bool) : List String :=
  (register_rows.map fun r =>
    [r.1] ++ tmc_get_registers_row tm regs r.2
      (print_flags seen stack AxisEnum.X_AXIS) (print_flags seen stack AxisEnum.Y_AXIS)
      (print_flags seen stack AxisEnum.Z_AXIS) (print_flags seen stack AxisEnum.E_AXIS)).flatten

/-- The serial output of a call of `monitor_tmc_driver()`. -/
def CallResult.output : CallResult → List String
  | CallResult.killed _ out _ _ => out
  | CallResult.returned _ out _ => out

/-! ## Reading back a hexadecimal rendering -/

/-- The value of a chunk that is a single hexadecimal digit, `0` to `9` or `A`
to `F`; no value for any other chunk. -/
def hex_value (s : String) : Option Nat :=
  match s.data with
  | [c] =>
    if '0' ≤ c ∧ c ≤ '9' then some (c.toNat - '0'.toNat)
    else if 'A' ≤ c ∧ c ≤ 'F' then some (c.toNat - 'A'.toNat + 10)
    else none
  | _ => none

/-- The number denoted by eight hexadecimal digits, most significant first. -/
def hex_number (a b c d e f g h : Nat) : Nat :=
  ((((((a * 16 + b) * 16 + c) * 16 + d) * 16 + e) * 16 + f) * 16 + g) * 16 + h

/-- Parsing, in the words of the claim on `print_32b_hex`: the text must be
four groups of two hexadecimal digits separated by `:` and followed by the
end of line; its value is that of the eight digits read as one hexadecimal
number. -/
def spec_parse_32b_hex : List String → Option Nat
  | [a, b, c1, c, d, c2, e, f, c3, g, h, nl] =>
    if c1 = ":" ∧ c2 = ":" ∧ c3 = ":" ∧ nl = "\n" then
      match hex_value a, hex_value b, hex_value c, hex_value d,
          hex_value e, hex_value f, hex_value g, hex_value h with
      | some va, some vb, some vc, some vd, some ve, some vf, some vg, some vh =>
        some (hex_number va vb vc vd ve vf vg vh)
      | _, _, _, _, _, _, _, _ => none
    else none
  | _ => none

/-! ## Fragments of the monitor output, named for the statements below -/

/-- The serial output of the warning block (lines 163-173) for a stepper set
to `mA` milliamps. -/
def warning_report (cfg : Config) (axis : TMC_AxisEnum) (inp : PollInput) (mA : Nat) :
    List String :=
  ["\n", cfg.toDigital inp.elapsed (decide (inp.elapsed > 60 * 60 * 24)), ": "]
    ++ _tmc_say_axis axis ++ [" driver overtemperature warning! (", printDEC mA, "mA)\n"]

/-- The serial output of the reporting block (lines 193-203) up to the fault
code: axis label, pwm scale and status-response byte. -/
def summary_head (fam : Family) (axis : TMC_AxisEnum) (inp : PollInput) (drv_status : Nat) :
    List String :=
  _tmc_say_axis axis ++ [":" ++ printDEC (get_pwm_scale fam inp), " |0b",
    printBIN (get_status_response fam inp drv_status), "| "]

/-! ## Concrete inputs used to evaluate the code -/

/-- A configuration with current step-down of 50 mA; `stop` is `STOP_ON_ERROR`. -/
def exampleConfig (stop : Bool) : Config where
  STOP_ON_ERROR := stop
  TMC_DEBUG := false
  ULTIPANEL := false
  SENSORLESS_HOMING := false
  CURRENT_STEP_DOWN := 50
  REPORT_CURRENT_CHANGE := false
  toDigital := fun _ _ => "00:00"

/-- A stepper object set to 800 mA whose warning flag is clear. -/
def exampleStepper : Stepper where
  val_mA := 800
  flag_otpw := false
  stored_sg_result := 0
  stored_cs_actual := 0

/-- Some contents for the uninitialised local `data`. -/
def exampleStack : TMC_driver_data where
  drv_status := 0
  is_otpw := false
  is_ot := false
  is_s2ga := false
  is_s2gb := false
  is_error := false

/-- The inputs of a poll of an enabled driver whose status register reads `w`. -/
def exampleInput (w : Nat) : PollInput where
  DRV_STATUS := w
  PWM_SCALE := 0
  pwm_scale_sum := 0
  status_response := 0
  GSTAT := 0
  isEnabled := true
  elapsed := 0
  stack := exampleStack
  report_all := []

/-- A machine with TMC2130 drivers on X and Y only. -/
def exampleMachine : Machine where
  HAS_HW_COMMS := fun id => decide (id = StepperId.X) || decide (id = StepperId.Y)
  IS_TRAMS := false
  family := fun _ => Family.TMC2130

/-- The monitor state at start-up: due time 0 and all counters 0. -/
def exampleMonitor : Monitor where
  next_cOT := 0
  stepper := fun _ => exampleStepper
  otpw_cnt := fun _ => 0

/-- A call at clock reading `t` in which every status register reads 0. -/
def exampleCall (t : Nat) : CallInput where
  now1 := t
  now2 := t
  report_tmc_status := false
  inp := fun _ => exampleInput 0

/-- Calls at 0, 100, 499, 500, 1200 and 1699 ms; the one at 500 ms reads
the clock again at 501 ms before storing the due time. -/
def exampleCalls : List CallInput :=
  [exampleCall 0, exampleCall 100, exampleCall 499,
    { exampleCall 500 with now2 := 501 }, exampleCall 1200, exampleCall 1699]

/-- A machine for the dumps with TMC2130 drivers on X and Y only. -/
def exampleTrinamic : Trinamic where
  IS_TRINAMIC := fun id => decide (id = StepperId.X) || decide (id = StepperId.Y)
  family := fun _ => Family.TMC2130

/-- Register contents that all read 0. -/
def exampleRegs : StepperId → TMC_get_registers_enum → Nat := fun _ _ => 0

/-- A chip read-out of `tmc_parse_drv_status` with all flags clear whose
status register reads `w`. -/
def exampleDrvRead (w : Nat) : DrvStatusRead where
  DRV_STATUS := w
  stst := false
  olb := false
  ola := false
  s2gb := false
  s2ga := false
  otpw := false
  ot := false
  cs_actual := 0
  stallguard := false
  sg_result := 0
  fsactive := false
  t157 := false
  t150 := false
  t143 := false
  t120 := false

/-- A machine with TMC2130 drivers on X and on the second X stepper X2. -/
def exampleDualMachine : Machine where
  HAS_HW_COMMS := fun id => decide (id = StepperId.X) || decide (id = StepperId.X2)
  IS_TRAMS := false
  family := fun _ => Family.TMC2130

/-- A call at clock reading 0 in which the status register of X reads 0 and
that of X2 carries the pre-warning; `rpt` is `report_tmc_status`. -/
def exampleDualCall (rpt : Bool) : CallInput where
  now1 := 0
  now2 := 0
  report_tmc_status := rpt
  inp := fun id => if id = StepperId.X2 then exampleInput 0x4000000 else exampleInput 0

/-! ## Properties of the decoders -/

theorem boolOr4_eq (a b c d : Bool) : boolOr4 a b c d = (a || b || c || d) := by
  cases a <;> cases b <;> cases c <;> cases d <;> rfl

theorem u32_of_lt {w : Nat} (h : w < 4294967296) : u32 w = w :=
  Nat.mod_eq_of_lt h

theorem toBool_mask_shift (w k : Nat) :
    toBool ((w &&& 2 ^ k) >>> k) = w.testBit k := by
  have h : (w &&& 2 ^ k) >>> k = (w >>> k) &&& 1 := by
    apply Nat.eq_of_testBit_eq
    intro i
    rw [Nat.testBit_shiftRight, Nat.testBit_and, Nat.testBit_and, Nat.testBit_shiftRight,
      Nat.testBit_two_pow]
    cases i with
    | zero => simp
    | succ j =>
      have h1 : Nat.testBit 1 (j + 1) = false := by
        rw [Nat.testBit_succ]; simp
      rw [h1]; simp
  rw [h, toBool, Nat.testBit, Nat.and_comm]

theorem toBool_shift_mask (w k : Nat) :
    toBool ((w >>> k) &&& 1) = w.testBit k := by
  rw [toBool, Nat.testBit, Nat.and_comm]

/-- Claim C1. For the TMC2130 and the TMC2208, `get_driver_data` yields a
snapshot for every status word, the snapshot does not depend on the prior
contents of the uninitialised local, and its `is_error` equals
`is_otpw || is_ot || is_s2ga || is_s2gb`. -/
theorem C1_error_is_or_of_flags (w : Nat) (d0 d1 : TMC_driver_data) :
    (get_driver_data Family.TMC2130 w d0 = get_driver_data Family.TMC2130 w d1
      ∧ (get_driver_data Family.TMC2130 w d0).is_error
          = ((get_driver_data Family.TMC2130 w d0).is_otpw
              || (get_driver_data Family.TMC2130 w d0).is_ot
              || (get_driver_data Family.TMC2130 w d0).is_s2ga
              || (get_driver_data Family.TMC2130 w d0).is_s2gb))
    ∧ (get_driver_data Family.TMC2208 w d0 = get_driver_data Family.TMC2208 w d1
      ∧ (get_driver_data Family.TMC2208 w d0).is_error
          = ((get_driver_data Family.TMC2208 w d0).is_otpw
              || (get_driver_data Family.TMC2208 w d0).is_ot
              || (get_driver_data Family.TMC2208 w d0).is_s2ga
              || (get_driver_data Family.TMC2208 w d0).is_s2gb)) := by
  refine ⟨⟨rfl, ?_⟩, ⟨rfl, ?_⟩⟩
  · exact boolOr4_eq _ _ _ _
  · exact boolOr4_eq _ _ _ _

/-- Claim C2. For the TMC2660 and every 32-bit status word `w`, the decoded
`is_error` is the mask test `(w AND 0x1E) != 0`, `is_otpw` is bit 2 of `w`
and `is_ot` is bit 1 of `w`. -/
theorem C2_tmc2660_error_is_mask (w : Nat) (hw : w < 4294967296) (d0 : TMC_driver_data) :
    (get_driver_data Family.TMC2660 w d0).is_error = (w &&& 0x1E != 0)
    ∧ (get_driver_data Family.TMC2660 w d0).is_otpw = w.testBit 2
    ∧ (get_driver_data Family.TMC2660 w d0).is_ot = w.testBit 1 := by
  refine ⟨?_, ?_, ?_⟩
  · show toBool (u32 w &&& u8 0x1E) = _
    rw [u32_of_lt hw]; rfl
  · show toBool ((u32 w &&& 0x4) >>> 2) = _
    rw [u32_of_lt hw]; exact toBool_mask_shift w 2
  · show toBool ((u32 w &&& 0x2) >>> 1) = _
    rw [u32_of_lt hw]; exact toBool_mask_shift w 1

/-- Witness for claim C2 at the status word `0x6`. -/
theorem C2_tmc2660_error_is_mask_witness :
    (6 : Nat) < 4294967296
    ∧ (get_driver_data Family.TMC2660 6 exampleStack).is_error = ((6 : Nat) &&& 0x1E != 0)
    ∧ (get_driver_data Family.TMC2660 6 exampleStack).is_otpw = (6 : Nat).testBit 2
    ∧ (get_driver_data Family.TMC2660 6 exampleStack).is_ot = (6 : Nat).testBit 1 :=
  ⟨by decide, C2_tmc2660_error_is_mask 6 (by decide) exampleStack⟩

/-! ## Properties of the per-axis monitor step -/

theorem update_lcd_data_val_mA (cfg : Config) (fam : Family) (st : Stepper) (d : Nat) :
    (update_lcd_data cfg fam st d).val_mA = st.val_mA
    ∧ (update_lcd_data cfg fam st d).flag_otpw = st.flag_otpw := by
  cases fam
  · unfold update_lcd_data
    by_cases h : cfg.SENSORLESS_HOMING = true <;> simp [h]
  · exact ⟨rfl, rfl⟩
  · exact ⟨rfl, rfl⟩

theorem lcd_step_val_mA (cfg : Config) (fam : Family) (st : Stepper) (d : Nat) :
    (if cfg.ULTIPANEL = true then update_lcd_data cfg fam st d else st).val_mA = st.val_mA
    ∧ (if cfg.ULTIPANEL = true then update_lcd_data cfg fam st d else st).flag_otpw
        = st.flag_otpw := by
  by_cases h : cfg.ULTIPANEL = true
  · simp only [h, if_true]; exact update_lcd_data_val_mA cfg fam st d
  · simp only [h, if_false]; exact ⟨rfl, rfl⟩

/-- A call reaches `kill` exactly when `STOP_ON_ERROR` is enabled and the
decoded `is_error` is set. -/
theorem monitor_isKilled (cfg : Config) (rpt : Bool) (fam : Family) (st : Stepper)
    (axis : TMC_AxisEnum) (cnt : Nat) (inp : PollInput) :
    (monitor_tmc_driver cfg rpt fam st axis cnt inp).isKilled
      = (cfg.STOP_ON_ERROR && (get_driver_data fam inp.DRV_STATUS inp.stack).is_error) := by
  unfold monitor_tmc_driver
  simp only []
  by_cases h : (cfg.STOP_ON_ERROR
      && (get_driver_data fam inp.DRV_STATUS inp.stack).is_error) = true
  · rw [if_pos h, h]; rfl
  · rw [if_neg h]
    simp only [Bool.not_eq_true] at h
    rw [h]; rfl

/-- The counter, the milliamp setting and the latched flag after a call that
returned, in terms of the values on entry. -/
theorem monitor_returned_spec (cfg : Config) (rpt : Bool) (fam : Family) (st : Stepper)
    (axis : TMC_AxisEnum) (cnt : Nat) (inp : PollInput)
    (st1 : Stepper) (cnt1 : Nat) (out : List String)
    (h : monitor_tmc_driver cfg rpt fam st axis cnt inp = Outcome.returned st1 cnt1 out) :
    cnt1 = (if (get_driver_data fam inp.DRV_STATUS inp.stack).is_otpw = true then u8 (cnt + 1)
            else if cnt > 0 then 0 else cnt)
    ∧ st1.val_mA
        = (if (decide (cfg.CURRENT_STEP_DOWN > 0)
                && ((get_driver_data fam inp.DRV_STATUS inp.stack).is_otpw && inp.isEnabled
                    && decide (cnt > 4))) = true
           then (((st.val_mA : Int) - (cfg.CURRENT_STEP_DOWN : Int)) % 65536).toNat
           else st.val_mA)
    ∧ st1.flag_otpw
        = ((get_driver_data fam inp.DRV_STATUS inp.stack).is_otpw || st.flag_otpw) := by
  unfold monitor_tmc_driver at h
  simp only [] at h
  by_cases hk : (cfg.STOP_ON_ERROR
      && (get_driver_data fam inp.DRV_STATUS inp.stack).is_error) = true
  · rw [if_pos hk] at h; exact Outcome.noConfusion h
  · rw [if_neg hk] at h
    injection h with h1 h2 h3
    clear h3
    obtain ⟨hv, hf⟩ := lcd_step_val_mA cfg fam st
      (get_driver_data fam inp.DRV_STATUS inp.stack).drv_status
    generalize (if cfg.ULTIPANEL = true then update_lcd_data cfg fam st
      (get_driver_data fam inp.DRV_STATUS inp.stack).drv_status else st) = stL at h1 hv hf
    generalize get_driver_data fam inp.DRV_STATUS inp.stack = data at h1 h2 hk
    subst h1 h2
    refine ⟨rfl, ?_, ?_⟩
    · split_ifs <;> simp_all [rms_current]
    · split_ifs <;> simp_all [rms_current]

theorem isKilled_eq_true {o : Outcome} (h : o.isKilled = true) :
    ∃ out msg, o = Outcome.killed out msg := by
  cases o with
  | killed out msg => exact ⟨out, msg, rfl⟩
  | returned st cnt out => exact Bool.noConfusion h

/-- A poll entered with a counter of at most 4 leaves the milliamp setting
unchanged and raises the counter by at most one. -/
theorem monitor_low_counter (cfg : Config) (rpt : Bool) (fam : Family) (st : Stepper)
    (axis : TMC_AxisEnum) (cnt : Nat) (inp : PollInput)
    (st1 : Stepper) (cnt1 : Nat) (out : List String)
    (h : monitor_tmc_driver cfg rpt fam st axis cnt inp = Outcome.returned st1 cnt1 out)
    (hc : cnt ≤ 4) : st1.val_mA = st.val_mA ∧ cnt1 ≤ cnt + 1 := by
  obtain ⟨h1, h2, _⟩ := monitor_returned_spec cfg rpt fam st axis cnt inp st1 cnt1 out h
  constructor
  · rw [h2]
    have : decide (cnt > 4) = false := by
      rw [decide_eq_false_iff_not]; omega
    simp [this]
  · rw [h1]
    split_ifs
    · exact Nat.le_trans (Nat.mod_le _ _) (Nat.le_refl _)
    · omega
    · omega

/-- Polls that start with counter `cnt` and number at most `5 - cnt` never
change the milliamp setting. -/
theorem run_polls_no_change (cfg : Config) (rpt : Bool) (fam : Family) (axis : TMC_AxisEnum)
    (inps : List PollInput) :
    ∀ (st : Stepper) (cnt : Nat), cnt + inps.length ≤ 5 →
      ∀ o ∈ run_polls cfg rpt fam axis st cnt inps,
        ∀ st1 c1 out, o = Outcome.returned st1 c1 out → st1.val_mA = st.val_mA := by
  induction inps with
  | nil =>
    intro st cnt _ o ho
    simp [run_polls] at ho
  | cons inp rest ih =>
    intro st cnt hlen o hmem st1 c1 out heq
    simp only [List.length_cons] at hlen
    unfold run_polls at hmem
    cases hm : monitor_tmc_driver cfg rpt fam st axis cnt inp with
    | killed ko kmsg =>
      rw [hm] at hmem
      simp only [List.mem_singleton] at hmem
      rw [hmem] at heq
      exact Outcome.noConfusion heq
    | returned st2 c2 out2 =>
      rw [hm] at hmem
      simp only [List.mem_cons] at hmem
      obtain ⟨hv, hc⟩ := monitor_low_counter cfg rpt fam st axis cnt inp st2 c2 out2 hm
        (by omega)
      rcases hmem with hmem | hmem
      · rw [hmem] at heq
        injection heq with e1 e2 e3
        rw [← e1]; exact hv
      · rw [← hv]
        exact ih st2 c2 (by omega) o hmem st1 c1 out heq

/-- Claim C3, evaluated at a status word carrying only the pre-warning. With
`STOP_ON_ERROR` enabled, a TMC2130 status word with only bit 26 (OTPW) set
is decoded with `is_otpw` set and `is_ot`, `is_s2ga`, `is_s2gb` clear, and
the monitor step reaches `kill`; likewise for the TMC2208 (bit 0) and the
TMC2660 (bit 2). -/
theorem C3_prewarning_alone_reaches_kill :
    ((get_driver_data Family.TMC2130 0x4000000 exampleStack).is_otpw = true
      ∧ (get_driver_data Family.TMC2130 0x4000000 exampleStack).is_ot = false
      ∧ (get_driver_data Family.TMC2130 0x4000000 exampleStack).is_s2ga = false
      ∧ (get_driver_data Family.TMC2130 0x4000000 exampleStack).is_s2gb = false
      ∧ monitor_tmc_driver (exampleConfig true) false Family.TMC2130 exampleStepper
          TMC_AxisEnum.TMC_X 0 (exampleInput 0x4000000)
        = Outcome.killed ["\n", "X", " driver error detected:\n"] "Driver error")
    ∧ (monitor_tmc_driver (exampleConfig true) false Family.TMC2208 exampleStepper
          TMC_AxisEnum.TMC_X 0 (exampleInput 0x1)).isKilled = true
    ∧ (monitor_tmc_driver (exampleConfig true) false Family.TMC2660 exampleStepper
          TMC_AxisEnum.TMC_X 0 (exampleInput 0x4)).isKilled = true := by
  decide

/-- Claim C4. With `STOP_ON_ERROR` enabled, a monitor step reaches `kill` if
and only if the decoded `is_error` is set; when it is set on the first poll
of a sequence, that poll is the only one made; and no poll step leads out
of the halted state. -/
theorem C4_halt_iff_error (cfg : Config) (rpt : Bool) (fam : Family) (st : Stepper)
    (axis : TMC_AxisEnum) (cnt : Nat) (inp : PollInput) (hstop : cfg.STOP_ON_ERROR = true) :
    ((monitor_tmc_driver cfg rpt fam st axis cnt inp).isKilled = true
        ↔ (get_driver_data fam inp.DRV_STATUS inp.stack).is_error = true)
    ∧ ((get_driver_data fam inp.DRV_STATUS inp.stack).is_error = true →
        ∀ rest, run_polls cfg rpt fam axis st cnt (inp :: rest)
            = [monitor_tmc_driver cfg rpt fam st axis cnt inp]
          ∧ poll_step cfg rpt fam axis (AxisState.running st cnt) inp
            = some AxisState.halted)
    ∧ (∀ t, ¬ Step cfg rpt fam axis AxisState.halted t) := by
  have hk := monitor_isKilled cfg rpt fam st axis cnt inp
  rw [hstop, Bool.true_and] at hk
  refine ⟨by rw [hk], ?_, ?_⟩
  · intro he rest
    rw [he] at hk
    obtain ⟨out, msg, ho⟩ := isKilled_eq_true hk
    constructor
    · unfold run_polls
      rw [ho]
    · show (match monitor_tmc_driver cfg rpt fam st axis cnt inp with
        | Outcome.killed _ _ => some AxisState.halted
        | Outcome.returned st1 cnt1 _ => some (AxisState.running st1 cnt1)) = _
      rw [ho]
  · intro t ht
    obtain ⟨i, hi⟩ := ht
    exact Option.noConfusion hi

/-- Witness for claim C4: a TMC2130 whose status word has the
short-to-ground bit 27 set, polled with `STOP_ON_ERROR` enabled. -/
theorem C4_halt_iff_error_witness :
    (exampleConfig true).STOP_ON_ERROR = true
    ∧ (get_driver_data Family.TMC2130 (exampleInput 0x8000000).DRV_STATUS
        (exampleInput 0x8000000).stack).is_error = true
    ∧ run_polls (exampleConfig true) false Family.TMC2130 TMC_AxisEnum.TMC_X exampleStepper 0
        [exampleInput 0x8000000, exampleInput 0]
      = [monitor_tmc_driver (exampleConfig true) false Family.TMC2130 exampleStepper
          TMC_AxisEnum.TMC_X 0 (exampleInput 0x8000000)] :=
  ⟨rfl, by decide,
    ((C4_halt_iff_error (exampleConfig true) false Family.TMC2130 exampleStepper
      TMC_AxisEnum.TMC_X 0 (exampleInput 0x8000000) rfl).2.1 (by decide)
      [exampleInput 0]).1⟩

/-- Claim C5. In one monitor step the milliamp setting is changed only when
the counter on entry exceeds 4, the warning flag is set and the driver is
enabled; and from counter 0 no poll among the first four changes it. -/
theorem C5_step_down_guard (cfg : Config) (rpt : Bool) (fam : Family) (st : Stepper)
    (axis : TMC_AxisEnum) (cnt : Nat) (inp : PollInput)
    (st1 : Stepper) (cnt1 : Nat) (out : List String)
    (h : monitor_tmc_driver cfg rpt fam st axis cnt inp = Outcome.returned st1 cnt1 out) :
    (st1.val_mA ≠ st.val_mA →
        cnt > 4 ∧ (get_driver_data fam inp.DRV_STATUS inp.stack).is_otpw = true
          ∧ inp.isEnabled = true)
    ∧ (∀ (st0 : Stepper) (inps : List PollInput), inps.length ≤ 4 →
        ∀ o ∈ run_polls cfg rpt fam axis st0 0 inps,
          ∀ st2 c2 out2, o = Outcome.returned st2 c2 out2 → st2.val_mA = st0.val_mA) := by
  constructor
  · intro hne
    obtain ⟨_, h2, _⟩ := monitor_returned_spec cfg rpt fam st axis cnt inp st1 cnt1 out h
    by_cases hf : (decide (cfg.CURRENT_STEP_DOWN > 0)
        && ((get_driver_data fam inp.DRV_STATUS inp.stack).is_otpw && inp.isEnabled
            && decide (cnt > 4))) = true
    · simp only [Bool.and_eq_true, decide_eq_true_eq] at hf
      exact ⟨hf.2.2, hf.2.1.1, hf.2.1.2⟩
    · rw [if_neg hf] at h2
      exact absurd h2 hne
  · intro st0 inps hlen
    exact run_polls_no_change cfg rpt fam axis inps st0 0 (by omega)

/-- Witness for claim C5: a step entered with counter 5 on an enabled
TMC2130 that reports the pre-warning, with `STOP_ON_ERROR` disabled. -/
theorem C5_step_down_guard_witness :
    monitor_tmc_driver (exampleConfig false) false Family.TMC2130 exampleStepper
        TMC_AxisEnum.TMC_X 5 (exampleInput 0x4000000)
      = Outcome.returned { exampleStepper with val_mA := 750, flag_otpw := true } 6 []
    ∧ ((750 : Nat) ≠ exampleStepper.val_mA →
        5 > 4 ∧ (get_driver_data Family.TMC2130 (exampleInput 0x4000000).DRV_STATUS
            (exampleInput 0x4000000).stack).is_otpw = true
          ∧ (exampleInput 0x4000000).isEnabled = true) :=
  ⟨by decide,
    (C5_step_down_guard (exampleConfig false) false Family.TMC2130 exampleStepper
      TMC_AxisEnum.TMC_X 5 (exampleInput 0x4000000)
      { exampleStepper with val_mA := 750, flag_otpw := true } 6 [] (by decide)).1⟩

theorem isKilled_eq_false {o : Outcome} (h : o.isKilled = false) :
    ∃ st cnt out, o = Outcome.returned st cnt out := by
  cases o with
  | killed out msg => exact Bool.noConfusion h
  | returned st cnt out => exact ⟨st, cnt, out, rfl⟩

theorem run_polls_cons_returned (cfg : Config) (rpt : Bool) (fam : Family)
    (axis : TMC_AxisEnum) (st : Stepper) (cnt : Nat) (inp : PollInput) (rest : List PollInput)
    (st1 : Stepper) (cnt1 : Nat) (out : List String)
    (h : monitor_tmc_driver cfg rpt fam st axis cnt inp = Outcome.returned st1 cnt1 out) :
    run_polls cfg rpt fam axis st cnt (inp :: rest)
      = Outcome.returned st1 cnt1 out :: run_polls cfg rpt fam axis st1 cnt1 rest := by
  show (match monitor_tmc_driver cfg rpt fam st axis cnt inp with
    | Outcome.killed out msg => [Outcome.killed out msg]
    | Outcome.returned st1 cnt1 out =>
      Outcome.returned st1 cnt1 out :: run_polls cfg rpt fam axis st1 cnt1 rest) = _
  rw [h]

/-- A warning poll without `STOP_ON_ERROR`, entered with a counter of at most
4: the call returns, the counter goes up by one, the setting is unchanged. -/
theorem monitor_warning_low (cfg : Config) (rpt : Bool) (fam : Family) (st : Stepper)
    (axis : TMC_AxisEnum) (cnt : Nat) (inp : PollInput)
    (hstop : cfg.STOP_ON_ERROR = false)
    (hw : (get_driver_data fam inp.DRV_STATUS inp.stack).is_otpw = true) (hc : cnt ≤ 4) :
    ∃ st1 out, monitor_tmc_driver cfg rpt fam st axis cnt inp
        = Outcome.returned st1 (cnt + 1) out ∧ st1.val_mA = st.val_mA := by
  have hk := monitor_isKilled cfg rpt fam st axis cnt inp
  rw [hstop, Bool.false_and] at hk
  obtain ⟨st1, cnt1, out, ho⟩ := isKilled_eq_false hk
  obtain ⟨h1, _, _⟩ := monitor_returned_spec cfg rpt fam st axis cnt inp st1 cnt1 out ho
  obtain ⟨hv, _⟩ := monitor_low_counter cfg rpt fam st axis cnt inp st1 cnt1 out ho hc
  rw [if_pos hw] at h1
  have h2 : cnt1 = cnt + 1 := by
    rw [h1]; exact Nat.mod_eq_of_lt (by omega)
  rw [h2] at ho
  exact ⟨st1, out, ho, hv⟩

/-- A warning poll of an enabled driver without `STOP_ON_ERROR` and with
step-down configured, entered with a counter above 4 and below 255: the call
returns, the counter goes up by one, and the setting becomes the 16-bit
value of the present setting minus `CURRENT_STEP_DOWN`. -/
theorem monitor_warning_high (cfg : Config) (rpt : Bool) (fam : Family) (st : Stepper)
    (axis : TMC_AxisEnum) (cnt : Nat) (inp : PollInput)
    (hstop : cfg.STOP_ON_ERROR = false) (hsd : cfg.CURRENT_STEP_DOWN > 0)
    (hw : (get_driver_data fam inp.DRV_STATUS inp.stack).is_otpw = true)
    (hen : inp.isEnabled = true) (hc : 4 < cnt) (hc2 : cnt < 255) :
    ∃ st1 out, monitor_tmc_driver cfg rpt fam st axis cnt inp
        = Outcome.returned st1 (cnt + 1) out
      ∧ st1.val_mA = (((st.val_mA : Int) - (cfg.CURRENT_STEP_DOWN : Int)) % 65536).toNat := by
  have hk := monitor_isKilled cfg rpt fam st axis cnt inp
  rw [hstop, Bool.false_and] at hk
  obtain ⟨st1, cnt1, out, ho⟩ := isKilled_eq_false hk
  obtain ⟨h1, hv, _⟩ := monitor_returned_spec cfg rpt fam st axis cnt inp st1 cnt1 out ho
  rw [if_pos hw] at h1
  have h2 : cnt1 = cnt + 1 := by
    rw [h1]; exact Nat.mod_eq_of_lt (by omega)
  rw [h2] at ho
  refine ⟨st1, out, ho, ?_⟩
  rw [hv, if_pos]
  simp [hw, hen, hc, hsd]

/-- Claim C6 as stated fails: with step-down of 50 mA, an enabled TMC2130 at
800 mA and counter 0, five consecutive polls that all carry the pre-warning
leave the setting at 800 mA after every poll, the fifth included. -/
theorem C6_five_polls_do_not_reduce :
    (run_polls (exampleConfig false) false Family.TMC2130 TMC_AxisEnum.TMC_X exampleStepper 0
        (List.replicate 5 (exampleInput 0x4000000))).map Outcome.current
      = [some 800, some 800, some 800, some 800, some 800] := by
  decide

/-- Claim C6, amended. From counter 0, with step-down configured, the driver
enabled and no halt on error, six consecutive warning polls all return; the
setting is unchanged after each of the first five and after the sixth it is
the 16-bit value of the initial setting minus `CURRENT_STEP_DOWN`, which is
strictly lower when the initial setting is a 16-bit value not below the
step. -/
theorem C6_first_reduction_on_sixth_poll (cfg : Config) (rpt : Bool) (fam : Family)
    (axis : TMC_AxisEnum) (st : Stepper) (i1 i2 i3 i4 i5 i6 : PollInput)
    (hstop : cfg.STOP_ON_ERROR = false) (hsd : cfg.CURRENT_STEP_DOWN > 0)
    (hw : ∀ i ∈ [i1, i2, i3, i4, i5, i6],
      (get_driver_data fam i.DRV_STATUS i.stack).is_otpw = true ∧ i.isEnabled = true) :
    (run_polls cfg rpt fam axis st 0 [i1, i2, i3, i4, i5, i6]).map Outcome.current
      = [some st.val_mA, some st.val_mA, some st.val_mA, some st.val_mA, some st.val_mA,
          some (((st.val_mA : Int) - (cfg.CURRENT_STEP_DOWN : Int)) % 65536).toNat]
    ∧ (cfg.CURRENT_STEP_DOWN ≤ st.val_mA → st.val_mA < 65536 →
        (((st.val_mA : Int) - (cfg.CURRENT_STEP_DOWN : Int)) % 65536).toNat < st.val_mA) := by
  constructor
  · obtain ⟨s1, o1, e1, v1⟩ := monitor_warning_low cfg rpt fam st axis 0 i1 hstop
      (hw i1 (by simp)).1 (by omega)
    obtain ⟨s2, o2, e2, v2⟩ := monitor_warning_low cfg rpt fam s1 axis 1 i2 hstop
      (hw i2 (by simp)).1 (by omega)
    obtain ⟨s3, o3, e3, v3⟩ := monitor_warning_low cfg rpt fam s2 axis 2 i3 hstop
      (hw i3 (by simp)).1 (by omega)
    obtain ⟨s4, o4, e4, v4⟩ := monitor_warning_low cfg rpt fam s3 axis 3 i4 hstop
      (hw i4 (by simp)).1 (by omega)
    obtain ⟨s5, o5, e5, v5⟩ := monitor_warning_low cfg rpt fam s4 axis 4 i5 hstop
      (hw i5 (by simp)).1 (by omega)
    obtain ⟨s6, o6, e6, v6⟩ := monitor_warning_high cfg rpt fam s5 axis 5 i6 hstop hsd
      (hw i6 (by simp)).1 (hw i6 (by simp)).2 (by omega) (by omega)
    rw [run_polls_cons_returned cfg rpt fam axis st 0 i1 _ s1 1 o1 e1,
      run_polls_cons_returned cfg rpt fam axis s1 1 i2 _ s2 2 o2 e2,
      run_polls_cons_returned cfg rpt fam axis s2 2 i3 _ s3 3 o3 e3,
      run_polls_cons_returned cfg rpt fam axis s3 3 i4 _ s4 4 o4 e4,
      run_polls_cons_returned cfg rpt fam axis s4 4 i5 _ s5 5 o5 e5,
      run_polls_cons_returned cfg rpt fam axis s5 5 i6 _ s6 6 o6 e6]
    have w1 : s1.val_mA = st.val_mA := v1
    have w2 : s2.val_mA = st.val_mA := v2.trans w1
    have w3 : s3.val_mA = st.val_mA := v3.trans w2
    have w4 : s4.val_mA = st.val_mA := v4.trans w3
    have w5 : s5.val_mA = st.val_mA := v5.trans w4
    rw [w5] at v6
    simp only [run_polls, List.map, Outcome.current, w1, w2, w3, w4, w5, v6]
  · intro hge hlt
    omega

/-- Witness for the amended claim C6: six warning polls of an enabled
TMC2130 at 800 mA with a step-down of 50 mA. -/
theorem C6_first_reduction_on_sixth_poll_witness :
    (run_polls (exampleConfig false) false Family.TMC2130 TMC_AxisEnum.TMC_X exampleStepper 0
        (List.replicate 6 (exampleInput 0x4000000))).map Outcome.current
      = [some 800, some 800, some 800, some 800, some 800, some 750] :=
  (C6_first_reduction_on_sixth_poll (exampleConfig false) false Family.TMC2130
    TMC_AxisEnum.TMC_X exampleStepper (exampleInput 0x4000000) (exampleInput 0x4000000)
    (exampleInput 0x4000000) (exampleInput 0x4000000) (exampleInput 0x4000000)
    (exampleInput 0x4000000) rfl (by decide) (by decide)).1

/-- Claim C7 as stated fails at the counter value 255: a warning poll
entered with counter 255 returns with counter 0, which is not 255 + 1. -/
theorem C7_increment_wraps_at_255 :
    (get_driver_data Family.TMC2130 (exampleInput 0x4000000).DRV_STATUS
        (exampleInput 0x4000000).stack).is_otpw = true
    ∧ (monitor_tmc_driver (exampleConfig false) false Family.TMC2130 exampleStepper
        TMC_AxisEnum.TMC_X 255 (exampleInput 0x4000000)).counter = some 0
    ∧ (monitor_tmc_driver (exampleConfig false) false Family.TMC2130 exampleStepper
        TMC_AxisEnum.TMC_X 255 (exampleInput 0x4000000)).counter ≠ some (255 + 1) := by
  decide

/-- Claim C7, amended. For a monitor step that does not halt, entered with
counter `c`: if the warning is absent the counter after the step is 0, and
if the warning is present and `c` is below 255 the counter after the step
is exactly `c + 1`. -/
theorem C7_counter_update_below_255 (cfg : Config) (rpt : Bool) (fam : Family) (st : Stepper)
    (axis : TMC_AxisEnum) (c : Nat) (inp : PollInput)
    (st1 : Stepper) (cnt1 : Nat) (out : List String)
    (h : monitor_tmc_driver cfg rpt fam st axis c inp = Outcome.returned st1 cnt1 out) :
    ((get_driver_data fam inp.DRV_STATUS inp.stack).is_otpw = false → cnt1 = 0)
    ∧ ((get_driver_data fam inp.DRV_STATUS inp.stack).is_otpw = true → c < 255 →
        cnt1 = c + 1) := by
  obtain ⟨h1, _, _⟩ := monitor_returned_spec cfg rpt fam st axis c inp st1 cnt1 out h
  constructor
  · intro hw
    rw [hw] at h1
    rw [h1]
    simp only [Bool.false_eq_true, if_false]
    split_ifs <;> omega
  · intro hw hc
    rw [if_pos hw] at h1
    rw [h1]
    exact Nat.mod_eq_of_lt (by omega)

/-- Witness for the amended claim C7: a warning poll entered with counter 254
returns with counter 255, and a poll without warning entered with counter 7
returns with counter 0. -/
theorem C7_counter_update_below_255_witness :
    (monitor_tmc_driver (exampleConfig false) false Family.TMC2130 exampleStepper
        TMC_AxisEnum.TMC_X 254 (exampleInput 0x4000000)
      = Outcome.returned { exampleStepper with val_mA := 750, flag_otpw := true } 255 [])
    ∧ (255 : Nat) = 254 + 1
    ∧ (monitor_tmc_driver (exampleConfig false) false Family.TMC2130 exampleStepper
        TMC_AxisEnum.TMC_X 7 (exampleInput 0)
      = Outcome.returned exampleStepper 0 [])
    ∧ (0 : Nat) = 0 :=
  ⟨by decide,
    (C7_counter_update_below_255 (exampleConfig false) false Family.TMC2130 exampleStepper
      TMC_AxisEnum.TMC_X 254 (exampleInput 0x4000000)
      { exampleStepper with val_mA := 750, flag_otpw := true } 255 [] (by decide)).2
      (by decide) (by decide),
    by decide,
    (C7_counter_update_below_255 (exampleConfig false) false Family.TMC2130 exampleStepper
      TMC_AxisEnum.TMC_X 7 (exampleInput 0) exampleStepper 0 [] (by decide)).1 (by decide)⟩

/-- Claim C9, evaluated at the ceiling. From counter 254, two consecutive
warning polls give the counters 255 and then 0: at its ceiling the counter
does not stay, it falls back to 0 while the warning persists. -/
theorem C9_counter_wraps_instead_of_saturating :
    (run_polls (exampleConfig false) false Family.TMC2130 TMC_AxisEnum.TMC_X exampleStepper 254
        [exampleInput 0x4000000, exampleInput 0x4000000]).map Outcome.counter
      = [some 255, some 0] := by
  decide

set_option maxRecDepth 100000 in
/-- Claim C8, evaluated on 256 consecutive warning polls. From the initial
state, after 256 polls that all observe the pre-warning the counter is 0,
although the most recent poll observed the warning. -/
theorem C8_counter_zero_after_256_warnings :
    ((run_polls (exampleConfig false) false Family.TMC2130 TMC_AxisEnum.TMC_X exampleStepper 0
        (List.replicate 256 (exampleInput 0x4000000))).map Outcome.counter).getLast?
      = some (some 0)
    ∧ (get_driver_data Family.TMC2130 (exampleInput 0x4000000).DRV_STATUS
        (exampleInput 0x4000000).stack).is_otpw = true := by
  decide

/-! ## Properties of the poll scheduler -/

/-- The per-axis polls never touch the due time. -/
theorem monitor_axes_next_cOT (cfg : Config) (mach : Machine) (c : CallInput)
    (calls : List (StepperId × TMC_AxisEnum × Bool)) :
    ∀ (m : Monitor) (out : List String) (polled : List StepperId),
      (monitor_axes cfg mach c calls m out polled).state.next_cOT = m.next_cOT := by
  induction calls with
  | nil => intro m out polled; rfl
  | cons x rest ih =>
    intro m out polled
    obtain ⟨id, axis, trams⟩ := x
    unfold monitor_axes
    by_cases hg : (mach.HAS_HW_COMMS id || (trams && mach.IS_TRAMS)) = true
    · rw [if_pos hg]
      cases hm : monitor_tmc_driver cfg c.report_tmc_status (mach.family id) (m.stepper id) axis
          (m.otpw_cnt id) (c.inp id) with
      | killed o msg => rfl
      | returned st1 cnt1 o =>
        simp only []
        rw [ih]
    · rw [if_neg hg]
      exact ih m out polled

/-- A call whose gate is closed returns at once with the state unchanged,
nothing printed and no stepper polled. -/
theorem monitor_all_gate_closed (cfg : Config) (mach : Machine) (m : Monitor) (c : CallInput)
    (hg : ELAPSED c.now1 m.next_cOT = false) :
    monitor_tmc_driver_all cfg mach m c = CallResult.returned m [] [] := by
  unfold monitor_tmc_driver_all
  rw [hg]
  rfl

/-- A call whose gate is open ends in a state whose due time is the second
clock reading plus 500, as a 32-bit value. -/
theorem monitor_all_gate_open (cfg : Config) (mach : Machine) (m : Monitor) (c : CallInput)
    (hg : ELAPSED c.now1 m.next_cOT = true) :
    (monitor_tmc_driver_all cfg mach m c).state.next_cOT = u32 (u32 c.now2 + 500) := by
  unfold monitor_tmc_driver_all
  rw [if_pos hg]
  simp only []
  have h := monitor_axes_next_cOT cfg mach c monitor_calls
    { m with next_cOT := u32 (u32 c.now2 + 500) } [] []
  cases hr : monitor_axes cfg mach c monitor_calls
      { m with next_cOT := u32 (u32 c.now2 + 500) } [] [] with
  | killed m1 out msg polled => rw [hr] at h; exact h
  | returned m1 out polled => rw [hr] at h; exact h

/-- Away from the 32-bit wrap, an open gate means the due time has been
reached. -/
theorem ELAPSED_due_reached (now due : Nat) (h1 : now + 500 < 4294967296)
    (h2 : due ≤ now + 500) (hg : ELAPSED now due = true) : due ≤ now := by
  unfold ELAPSED u32 at hg
  rw [decide_eq_true_eq] at hg
  rw [Nat.mod_eq_of_lt (by omega : now < 4294967296),
    Nat.mod_eq_of_lt (by omega : due < 4294967296)] at hg
  by_contra hlt
  have h3 : (now + 4294967296 - due) % 4294967296 = now + 4294967296 - due :=
    Nat.mod_eq_of_lt (by omega)
  omega

/-- The log of a sequence of calls, unfolded at its first call. -/
theorem poll_log_cons (cfg : Config) (mach : Machine) (m : Monitor) (c : CallInput)
    (rest : List CallInput) :
    poll_log cfg mach m (c :: rest)
      = (if (monitor_tmc_driver_all cfg mach m c).polled.isEmpty = true then []
          else [(c.now1, (monitor_tmc_driver_all cfg mach m c).state.next_cOT)])
        ++ (match monitor_tmc_driver_all cfg mach m c with
            | CallResult.killed _ _ _ _ => []
            | CallResult.returned m1 _ _ => poll_log cfg mach m1 rest) := by
  show (match monitor_tmc_driver_all cfg mach m c with
    | CallResult.killed m1 _ _ polled =>
      if polled.isEmpty then [] else [(c.now1, m1.next_cOT)]
    | CallResult.returned m1 _ polled =>
      (if polled.isEmpty then [] else [(c.now1, m1.next_cOT)])
        ++ poll_log cfg mach m1 rest) = _
  cases monitor_tmc_driver_all cfg mach m c with
  | killed m1 out msg polled => simp [CallResult.state, CallResult.polled]
  | returned m1 out polled => simp [CallResult.state, CallResult.polled]

/-- The invariant behind the spacing of polls: when the due time is at most
500 ms ahead of the clock, every logged call ran at or after the due time of
the state the sequence started from, ended with a due time at least 500 ms
after its own clock reading, and the logged calls are pairwise spaced. -/
theorem poll_log_spaced (cfg : Config) (mach : Machine) (calls : List CallInput) :
    ∀ (lo : Nat) (m : Monitor), clock_ok lo calls = true → m.next_cOT ≤ lo + 500 →
      List.Chain' spaced (poll_log cfg mach m calls)
      ∧ ∀ e ∈ poll_log cfg mach m calls, m.next_cOT ≤ e.1 ∧ e.1 + 500 ≤ e.2 := by
  induction calls with
  | nil =>
    intro lo m _ _
    exact ⟨List.chain'_nil, fun e he => by simp [poll_log] at he⟩
  | cons c rest ih =>
    intro lo m hclk hdue
    unfold clock_ok at hclk
    simp only [Bool.and_eq_true, decide_eq_true_eq] at hclk
    obtain ⟨⟨⟨hlo, h12⟩, hwrap⟩, hrest⟩ := hclk
    rw [poll_log_cons]
    by_cases hg : ELAPSED c.now1 m.next_cOT = true
    · have hreach : m.next_cOT ≤ c.now1 :=
        ELAPSED_due_reached c.now1 m.next_cOT (by omega) (by omega) hg
      have hd := monitor_all_gate_open cfg mach m c hg
      have hval : u32 (u32 c.now2 + 500) = c.now2 + 500 := by
        unfold u32
        rw [Nat.mod_eq_of_lt (by omega : c.now2 < 4294967296), Nat.mod_eq_of_lt hwrap]
      rw [hval] at hd
      rw [hd]
      cases hr : monitor_tmc_driver_all cfg mach m c with
      | killed m1 out msg p =>
        simp only [List.append_nil, CallResult.polled]
        by_cases hp : p.isEmpty = true
        · rw [if_pos hp]
          exact ⟨List.chain'_nil, fun e he => by simp at he⟩
        · rw [if_neg hp]
          refine ⟨List.chain'_singleton _, ?_⟩
          intro e he
          simp only [List.mem_singleton] at he
          rw [he]
          exact ⟨hreach, by simp only []; omega⟩
      | returned m1 out p =>
        simp only [CallResult.polled]
        rw [hr] at hd
        have hd1 : m1.next_cOT = c.now2 + 500 := hd
        obtain ⟨ihc, ihe⟩ := ih c.now2 m1 hrest (by omega)
        by_cases hp : p.isEmpty = true
        · rw [if_pos hp, List.nil_append]
          refine ⟨ihc, fun e he => ?_⟩
          obtain ⟨a, b⟩ := ihe e he
          exact ⟨by omega, b⟩
        · rw [if_neg hp]
          constructor
          · show List.Chain' spaced ((c.now1, c.now2 + 500) :: poll_log cfg mach m1 rest)
            apply List.Chain'.cons' ihc
            intro y hy
            have hy1 := (ihe y (List.mem_of_mem_head? hy)).1
            unfold spaced
            simp only []
            omega
          · intro e he
            simp only [List.singleton_append, List.mem_cons] at he
            rcases he with he | he
            · rw [he]
              exact ⟨hreach, by simp only []; omega⟩
            · obtain ⟨a, b⟩ := ihe e he
              exact ⟨by omega, b⟩
    · have hg2 : ELAPSED c.now1 m.next_cOT = false := by
        simpa using hg
      rw [monitor_all_gate_closed cfg mach m c hg2]
      simp only [CallResult.polled, List.isEmpty_nil, if_true, List.nil_append]
      exact ih c.now2 m hrest (by omega)

/-- Claim C10. Over any sequence of calls of `monitor_tmc_driver()` from a
state whose due time is 0, with clock readings that never go back and stay
clear of the 32-bit wrap: every call during which a per-axis poll is made
ends with a stored due time at least 500 ms after the clock reading of its
gate, and any two successive calls during which a per-axis poll is made are
at least 500 ms apart. A call counts as running the polls when its record
of per-axis calls made is not empty. In any state, a call whose clock reading has
not reached the due time polls no stepper and leaves the whole state,
counters and due time included, as it was. -/
theorem C10_polls_at_least_500ms_apart (cfg : Config) (mach : Machine) (m : Monitor)
    (calls : List CallInput) (h0 : m.next_cOT = 0) (hclk : clock_ok 0 calls = true) :
    (∀ e ∈ poll_log cfg mach m calls, e.1 + 500 ≤ e.2)
    ∧ List.Chain' spaced (poll_log cfg mach m calls)
    ∧ (∀ (m1 : Monitor) (c : CallInput), ELAPSED c.now1 m1.next_cOT = false →
        (monitor_tmc_driver_all cfg mach m1 c).polled = []
        ∧ (monitor_tmc_driver_all cfg mach m1 c).state = m1) := by
  obtain ⟨hc, he⟩ := poll_log_spaced cfg mach calls 0 m hclk (by omega)
  refine ⟨fun e hmem => (he e hmem).2, hc, fun m1 c hg => ?_⟩
  rw [monitor_all_gate_closed cfg mach m1 c hg]
  exact ⟨rfl, rfl⟩

/-- Witness for claim C10: of the calls at 0, 100, 499, 500, 1200 and 1699 ms
on a machine with drivers on X and Y, those at 0, 500 and 1200 ms poll X and
Y and store the due times 500, 1001 and 1700; the others poll nothing. -/
theorem C10_polls_at_least_500ms_apart_witness :
    exampleMonitor.next_cOT = 0 ∧ clock_ok 0 exampleCalls = true
    ∧ poll_log (exampleConfig true) exampleMachine exampleMonitor exampleCalls
        = [(0, 500), (500, 1001), (1200, 1700)]
    ∧ (monitor_tmc_driver_all (exampleConfig true) exampleMachine exampleMonitor
        (exampleCall 0)).polled = [StepperId.X, StepperId.Y]
    ∧ List.Chain' spaced
        (poll_log (exampleConfig true) exampleMachine exampleMonitor exampleCalls) :=
  ⟨rfl, by decide, by decide, by decide,
    (C10_polls_at_least_500ms_apart (exampleConfig true) exampleMachine exampleMonitor
      exampleCalls rfl (by decide)).2.1⟩

/-! ## Further properties of the monitor step and of the scheduler -/

/-- The serial output of a call that returned: the warning block, the
step-down report and the status summary, each under its guard. -/
theorem monitor_returned_output (cfg : Config) (rpt : Bool) (fam : Family) (st : Stepper)
    (axis : TMC_AxisEnum) (cnt : Nat) (inp : PollInput)
    (st1 : Stepper) (cnt1 : Nat) (out : List String)
    (h : monitor_tmc_driver cfg rpt fam st axis cnt inp = Outcome.returned st1 cnt1 out) :
    out = (if ((get_driver_data fam inp.DRV_STATUS inp.stack).is_otpw && cnt == 0) = true
            then warning_report cfg axis inp st.val_mA else [])
      ++ (if (decide (cfg.CURRENT_STEP_DOWN > 0)
              && ((get_driver_data fam inp.DRV_STATUS inp.stack).is_otpw && inp.isEnabled
                  && decide (cnt > 4)) && cfg.REPORT_CURRENT_CHANGE) = true
            then _tmc_say_axis axis ++ [" current decreased to " ++ printDEC st1.val_mA ++ "\n"]
            else [])
      ++ (if rpt = true
            then summary_head fam axis inp
                (get_driver_data fam inp.DRV_STATUS inp.stack).drv_status
              ++ fault_code (get_driver_data fam inp.DRV_STATUS inp.stack) cnt1 st1.flag_otpw
              ++ ["\t"]
            else []) := by
  unfold monitor_tmc_driver at h
  simp only [] at h
  by_cases hk : (cfg.STOP_ON_ERROR
      && (get_driver_data fam inp.DRV_STATUS inp.stack).is_error) = true
  · rw [if_pos hk] at h; exact Outcome.noConfusion h
  · rw [if_neg hk] at h
    injection h with h1 h2 h3
    obtain ⟨hv, hf⟩ := lcd_step_val_mA cfg fam st
      (get_driver_data fam inp.DRV_STATUS inp.stack).drv_status
    generalize (if cfg.ULTIPANEL = true then update_lcd_data cfg fam st
      (get_driver_data fam inp.DRV_STATUS inp.stack).drv_status else st) = stL at h1 h3 hv hf
    generalize get_driver_data fam inp.DRV_STATUS inp.stack = data at h1 h2 h3 hk
    subst h1 h2 h3
    simp only [warning_report, summary_head, hv]
    split_ifs <;> simp_all [rms_current]

/-- Claim C11 as stated fails: from the start-up state (due time 0) a call at
clock reading 1200 ms runs the polls and stores the due time 1700, which is
the clock reading plus 500 and not the old due time plus 500. -/
theorem C11_due_not_advanced_from_old_due :
    (monitor_tmc_driver_all (exampleConfig true) exampleMachine exampleMonitor
        (exampleCall 1200)).state.next_cOT = 1700
    ∧ (monitor_tmc_driver_all (exampleConfig true) exampleMachine exampleMonitor
        (exampleCall 1200)).state.next_cOT ≠ exampleMonitor.next_cOT + 500 := by
  decide

/-- Claim C11, amended. When a call of `monitor_tmc_driver()` runs the polls,
the stored due time is the clock reading taken at that moment plus 500, as a
32-bit value, whatever the previous due time was; away from the 32-bit wrap
it is exactly that reading plus 500. -/
theorem C11_due_is_clock_plus_interval (cfg : Config) (mach : Machine) (m : Monitor)
    (c : CallInput) (hg : ELAPSED c.now1 m.next_cOT = true) :
    (monitor_tmc_driver_all cfg mach m c).state.next_cOT = u32 (u32 c.now2 + 500)
    ∧ (c.now2 + 500 < 4294967296 →
        (monitor_tmc_driver_all cfg mach m c).state.next_cOT = c.now2 + 500) := by
  have h := monitor_all_gate_open cfg mach m c hg
  refine ⟨h, fun hlt => ?_⟩
  rw [h]
  unfold u32
  rw [Nat.mod_eq_of_lt (by omega : c.now2 < 4294967296), Nat.mod_eq_of_lt hlt]

/-- Witness for the amended claim C11: the call at 1200 ms from the start-up
state. -/
theorem C11_due_is_clock_plus_interval_witness :
    ELAPSED (exampleCall 1200).now1 exampleMonitor.next_cOT = true
    ∧ (monitor_tmc_driver_all (exampleConfig true) exampleMachine exampleMonitor
        (exampleCall 1200)).state.next_cOT = (exampleCall 1200).now2 + 500 :=
  ⟨by decide,
    (C11_due_is_clock_plus_interval (exampleConfig true) exampleMachine exampleMonitor
      (exampleCall 1200) (by decide)).2 (by decide)⟩

/-- A status word of 0 decodes to no warning and no error in every family. -/
theorem get_driver_data_zero (fam : Family) (d : TMC_driver_data) :
    (get_driver_data fam 0 d).is_otpw = false ∧ (get_driver_data fam 0 d).is_error = false := by
  cases fam <;> constructor <;>
    simp [get_driver_data, get_driver_data_TMC2130, get_driver_data_TMC2208,
      get_driver_data_TMC2660, toBool, boolOr4, u32, u8]

/-- A poll with status word 0, counter 0 and reporting off returns with no
output, counter 0 and the setting and the latched flag unchanged. -/
theorem monitor_quiet_step (cfg : Config) (fam : Family) (st : Stepper) (axis : TMC_AxisEnum)
    (inp : PollInput) (hz : inp.DRV_STATUS = 0) :
    ∃ st1, monitor_tmc_driver cfg false fam st axis 0 inp = Outcome.returned st1 0 []
      ∧ st1.val_mA = st.val_mA ∧ st1.flag_otpw = st.flag_otpw := by
  obtain ⟨hw, he⟩ := get_driver_data_zero fam inp.stack
  rw [← hz] at hw he
  have hk := monitor_isKilled cfg false fam st axis 0 inp
  rw [he, Bool.and_false] at hk
  obtain ⟨st1, cnt1, out, ho⟩ := isKilled_eq_false hk
  obtain ⟨h1, h2, h3⟩ := monitor_returned_spec cfg false fam st axis 0 inp st1 cnt1 out ho
  have h4 := monitor_returned_output cfg false fam st axis 0 inp st1 cnt1 out ho
  rw [hw] at h1 h2 h3 h4
  simp at h1 h2 h3 h4
  rw [h1, h4] at ho
  exact ⟨st1, ho, h2, h3⟩

/-- Any number of polls with status word 0 from counter 0 with reporting off:
as many calls return, each with no output, counter 0 and the setting and the
latched flag as at the start. -/
theorem run_polls_quiet (cfg : Config) (fam : Family) (axis : TMC_AxisEnum)
    (inps : List PollInput) :
    ∀ (st : Stepper), (∀ i ∈ inps, i.DRV_STATUS = 0) →
      (run_polls cfg false fam axis st 0 inps).length = inps.length
      ∧ ∀ o ∈ run_polls cfg false fam axis st 0 inps,
          ∃ st1, o = Outcome.returned st1 0 [] ∧ st1.val_mA = st.val_mA
            ∧ st1.flag_otpw = st.flag_otpw := by
  induction inps with
  | nil =>
    intro st _
    exact ⟨rfl, fun o ho => by simp [run_polls] at ho⟩
  | cons inp rest ih =>
    intro st hz
    obtain ⟨st1, ho, hv, hf⟩ := monitor_quiet_step cfg fam st axis inp
      (hz inp (List.mem_cons_self _ _))
    obtain ⟨ihl, ihm⟩ := ih st1 (fun i hi => hz i (List.mem_cons_of_mem _ hi))
    rw [run_polls_cons_returned cfg false fam axis st 0 inp rest st1 0 [] ho]
    constructor
    · simp only [List.length_cons, ihl]
    · intro o hmem
      simp only [List.mem_cons] at hmem
      rcases hmem with hmem | hmem
      · exact ⟨st1, hmem, hv, hf⟩
      · obtain ⟨st2, e, v2, f2⟩ := ihm o hmem
        exact ⟨st2, e, v2.trans hv, f2.trans hf⟩

/-- Claim C12. From counter 0 with reporting mode at its initial value (off),
ten consecutive polls whose status word is 0 are all made and all return:
none reaches `kill`, none prints anything, and after each of them the counter
is 0 and the milliamp setting and the latched flag are as at the start. -/
theorem C12_ten_quiet_polls (cfg : Config) (fam : Family) (axis : TMC_AxisEnum) (st : Stepper)
    (inps : List PollInput) (hlen : inps.length = 10) (hz : ∀ i ∈ inps, i.DRV_STATUS = 0) :
    (run_polls cfg report_tmc_status_initial fam axis st 0 inps).length = 10
    ∧ ∀ o ∈ run_polls cfg report_tmc_status_initial fam axis st 0 inps,
        ∃ st1, o = Outcome.returned st1 0 [] ∧ st1.val_mA = st.val_mA
          ∧ st1.flag_otpw = st.flag_otpw := by
  obtain ⟨hl, hm⟩ := run_polls_quiet cfg fam axis inps st hz
  exact ⟨hl.trans hlen, hm⟩

/-- Witness for claim C12: ten polls of a TMC2130 at 800 mA with
`STOP_ON_ERROR` enabled. -/
theorem C12_ten_quiet_polls_witness :
    (List.replicate 10 (exampleInput 0)).length = 10
    ∧ (run_polls (exampleConfig true) report_tmc_status_initial Family.TMC2130
        TMC_AxisEnum.TMC_X exampleStepper 0 (List.replicate 10 (exampleInput 0))).length = 10
    ∧ run_polls (exampleConfig true) report_tmc_status_initial Family.TMC2130
        TMC_AxisEnum.TMC_X exampleStepper 0 (List.replicate 10 (exampleInput 0))
      = List.replicate 10 (Outcome.returned exampleStepper 0 []) :=
  ⟨rfl,
    (C12_ten_quiet_polls (exampleConfig true) Family.TMC2130 TMC_AxisEnum.TMC_X exampleStepper
      (List.replicate 10 (exampleInput 0)) rfl
      (fun i hi => by rw [List.eq_of_mem_replicate hi]; rfl)).1,
    by decide⟩

set_option maxRecDepth 100000 in
/-- Claim C13, evaluated on 257 consecutive warning polls. From counter 0,
with `STOP_ON_ERROR` disabled and the driver not enabled (so the setting
stays at 800 mA), the overtemperature-warning line is printed on the first
poll, on none of the polls 2 to 256, and again on the 257th poll, although
every poll observed the warning and the condition never cleared. -/
theorem C13_warning_reported_again_after_wrap :
    (run_polls (exampleConfig false) false Family.TMC2130 TMC_AxisEnum.TMC_X exampleStepper 0
        (List.replicate 257 { exampleInput 0x4000000 with isEnabled := false })).map
        Outcome.output
      = [["\n", "00:00", ": ", "X", " driver overtemperature warning! (", "800", "mA)\n"]]
        ++ List.replicate 255 []
        ++ [["\n", "00:00", ": ", "X", " driver overtemperature warning! (", "800", "mA)\n"]] := by
  decide

/-- Claim C14. For a monitor step that returns, the serial output is the
output of the warning and step-down blocks followed, when reporting mode is
on, by the summary: axis label, pwm scale, status-response byte, then the
fault code chosen by first match (`E` if `is_error`, else `O` if `is_ot`,
else `W` if `is_otpw`, else the decimal counter after the update if it is
positive, else `F` if the latched flag is set, else nothing), then a tab.
With reporting mode off nothing follows the first two blocks. -/
theorem C14_fault_code_first_match (cfg : Config) (rpt : Bool) (fam : Family) (st : Stepper)
    (axis : TMC_AxisEnum) (cnt : Nat) (inp : PollInput)
    (st1 : Stepper) (cnt1 : Nat) (out : List String)
    (h : monitor_tmc_driver cfg rpt fam st axis cnt inp = Outcome.returned st1 cnt1 out) :
    out = (if ((get_driver_data fam inp.DRV_STATUS inp.stack).is_otpw && cnt == 0) = true
            then warning_report cfg axis inp st.val_mA else [])
      ++ (if (decide (cfg.CURRENT_STEP_DOWN > 0)
              && ((get_driver_data fam inp.DRV_STATUS inp.stack).is_otpw && inp.isEnabled
                  && decide (cnt > 4)) && cfg.REPORT_CURRENT_CHANGE) = true
            then _tmc_say_axis axis ++ [" current decreased to " ++ printDEC st1.val_mA ++ "\n"]
            else [])
      ++ (if rpt = true
            then summary_head fam axis inp
                (get_driver_data fam inp.DRV_STATUS inp.stack).drv_status
              ++ (if (get_driver_data fam inp.DRV_STATUS inp.stack).is_error = true then ["E"]
                  else if (get_driver_data fam inp.DRV_STATUS inp.stack).is_ot = true then ["O"]
                  else if (get_driver_data fam inp.DRV_STATUS inp.stack).is_otpw = true
                    then ["W"]
                  else if cnt1 > 0 then [printDEC cnt1]
                  else if st1.flag_otpw = true then ["F"]
                  else [])
              ++ ["\t"]
            else []) := by
  have h4 := monitor_returned_output cfg rpt fam st axis cnt inp st1 cnt1 out h
  unfold fault_code at h4
  exact h4

/-- Witness for claim C14: with reporting on, a poll with status word 0 of a
stepper whose latched flag is set appends the code `F`; with reporting off
the same poll prints nothing. -/
theorem C14_fault_code_first_match_witness :
    monitor_tmc_driver (exampleConfig true) true Family.TMC2130
        { exampleStepper with flag_otpw := true } TMC_AxisEnum.TMC_X 0 (exampleInput 0)
      = Outcome.returned { exampleStepper with flag_otpw := true } 0
          ["X", ":0", " |0b", "0", "| ", "F", "\t"]
    ∧ monitor_tmc_driver (exampleConfig true) false Family.TMC2130
        { exampleStepper with flag_otpw := true } TMC_AxisEnum.TMC_X 0 (exampleInput 0)
      = Outcome.returned { exampleStepper with flag_otpw := true } 0 []
    ∧ (["X", ":0", " |0b", "0", "| ", "F", "\t"] : List String)
      = (if ((get_driver_data Family.TMC2130 (exampleInput 0).DRV_STATUS
                (exampleInput 0).stack).is_otpw && (0 : Nat) == 0) = true
            then warning_report (exampleConfig true) TMC_AxisEnum.TMC_X (exampleInput 0) 800
            else [])
        ++ [] ++ (summary_head Family.TMC2130 TMC_AxisEnum.TMC_X (exampleInput 0) 0
          ++ ["F"] ++ ["\t"]) :=
  ⟨by decide, by decide,
    (C14_fault_code_first_match (exampleConfig true) true Family.TMC2130
      { exampleStepper with flag_otpw := true } TMC_AxisEnum.TMC_X 0 (exampleInput 0)
      { exampleStepper with flag_otpw := true } 0
      ["X", ":0", " |0b", "0", "| ", "F", "\t"] (by decide)).trans (by decide)⟩

/-! ## Properties of the dumps and of the connection test -/

theorem printHEX_nibble_ne_marker (n : Nat) : printHEX (n &&& 0xF) ≠ "\t Bad response!" := by
  have h : n &&& 0xF ≤ 0xF := Nat.and_le_right
  generalize n &&& 0xF = k at h
  interval_cases k <;> decide

theorem marker_not_in_hex (w : Nat) : "\t Bad response!" ∉ print_32b_hex w := by
  intro hmem
  simp only [print_32b_hex, print_32b_hex_loop, List.append_nil, List.cons_append,
    List.nil_append, List.mem_cons, List.mem_singleton, List.not_mem_nil, or_false] at hmem
  rcases hmem with h | h | h | h | h | h | h | h | h | h | h | h
  · exact printHEX_nibble_ne_marker _ h.symm
  · exact printHEX_nibble_ne_marker _ h.symm
  · exact absurd h (by decide)
  · exact printHEX_nibble_ne_marker _ h.symm
  · exact printHEX_nibble_ne_marker _ h.symm
  · exact absurd h (by decide)
  · exact printHEX_nibble_ne_marker _ h.symm
  · exact printHEX_nibble_ne_marker _ h.symm
  · exact absurd h (by decide)
  · exact printHEX_nibble_ne_marker _ h.symm
  · exact printHEX_nibble_ne_marker _ h.symm
  · exact absurd h (by decide)

theorem marker_not_axis (axis : TMC_AxisEnum) : "\t Bad response!" ∉ _tmc_say_axis axis := by
  cases axis <;> decide

/-- Claim C15. In the item `TMC_DRV_STATUS_HEX` of the driver-status dump the
chunk `"\t Bad response!"` is printed if and only if the raw status read is
`0xFFFFFFFF` or 0. -/
theorem C15_bad_response_iff_all_ones_or_zero (fam : Family) (rd : DrvStatusRead)
    (axis : TMC_AxisEnum) :
    "\t Bad response!"
        ∈ tmc_parse_drv_status fam rd axis TMC_drv_status_enum.TMC_DRV_STATUS_HEX
      ↔ (u32 rd.DRV_STATUS = 0xFFFFFFFF ∨ u32 rd.DRV_STATUS = 0) := by
  have hax := marker_not_axis axis
  have hhex := marker_not_in_hex (u32 rd.DRV_STATUS)
  show "\t Bad response!" ∈ ["\t"] ++ (["\t"] ++ _tmc_say_axis axis ++ [" = 0x"]
      ++ print_32b_hex (u32 rd.DRV_STATUS)
      ++ (if (u32 rd.DRV_STATUS == 0xFFFFFFFF || u32 rd.DRV_STATUS == 0) = true
          then ["\t Bad response!"] else [])
      ++ ["\n"]) ↔ _
  by_cases hb : (u32 rd.DRV_STATUS == 0xFFFFFFFF || u32 rd.DRV_STATUS == 0) = true
  · rw [if_pos hb]
    simp only [Bool.or_eq_true, beq_iff_eq] at hb
    constructor
    · intro _; exact hb
    · intro _
      simp only [List.mem_append, List.mem_singleton, true_or, or_true]
  · rw [if_neg hb]
    simp only [Bool.or_eq_true, beq_iff_eq] at hb
    constructor
    · intro hmem
      simp only [List.mem_append, List.mem_singleton, List.not_mem_nil, or_false] at hmem
      rcases hmem with h | (((h | h) | h) | h) | h
      · exact absurd h (by decide)
      · exact absurd h (by decide)
      · exact absurd h hax
      · exact absurd h (by decide)
      · exact absurd h hhex
      · exact absurd h (by decide)
    · intro h; exact absurd h hb

/-- The `switch` of `test_connection` has no default: for a code above 2
nothing is printed between the prefix and the end of line. -/
theorem test_connection_other_code (axis : TMC_AxisEnum) (r : Nat) (hr : 2 < r) :
    test_connection axis r = ["Testing "] ++ _tmc_say_axis axis ++ [" connection...", "\n"] := by
  obtain ⟨k, rfl⟩ : ∃ k, r = k + 3 := ⟨r - 3, by omega⟩
  simp [test_connection]

/-- Claim C16 as stated fails: it speaks of every result code, but for the
code 3 on the axis X `test_connection` prints the prefix and the end of line
with nothing between them, so none of the three literal outcomes is
printed. -/
theorem C16_code_three_prints_no_outcome :
    test_connection TMC_AxisEnum.TMC_X 3 = ["Testing ", "X", " connection...", "\n"]
    ∧ ¬ ∃ lit ∈ ["OK", "Error(0xFFFFFFFF)", "Error(0x0)"],
        test_connection TMC_AxisEnum.TMC_X 3
          = ["Testing "] ++ _tmc_say_axis TMC_AxisEnum.TMC_X
              ++ [" connection...", lit, "\n"] := by
  decide

/-- Claim C16, amended. For every result code `r` of the vendor self-test,
`test_connection` prints `Testing `, the axis label, ` connection...`, then
`OK` for 0, `Error(0xFFFFFFFF)` for 1, `Error(0x0)` for 2 and nothing for any
other code, then the end of line. So exactly one of the three literal
outcomes stands between the prefix and the end of line if and only if the
code is 0, 1 or 2. -/
theorem C16_test_connection_outcomes (axis : TMC_AxisEnum) (r : Nat) :
    (r = 0 → test_connection axis r
        = ["Testing "] ++ _tmc_say_axis axis ++ [" connection...", "OK", "\n"])
    ∧ (r = 1 → test_connection axis r
        = ["Testing "] ++ _tmc_say_axis axis ++ [" connection...", "Error(0xFFFFFFFF)", "\n"])
    ∧ (r = 2 → test_connection axis r
        = ["Testing "] ++ _tmc_say_axis axis ++ [" connection...", "Error(0x0)", "\n"])
    ∧ (2 < r → test_connection axis r
        = ["Testing "] ++ _tmc_say_axis axis ++ [" connection...", "\n"])
    ∧ ((∃ lit ∈ ["OK", "Error(0xFFFFFFFF)", "Error(0x0)"],
          test_connection axis r
            = ["Testing "] ++ _tmc_say_axis axis ++ [" connection...", lit, "\n"])
        ↔ r ≤ 2) := by
  refine ⟨?_, ?_, ?_, test_connection_other_code axis r, ?_⟩
  · intro h; subst h; simp [test_connection]
  · intro h; subst h; simp [test_connection]
  · intro h; subst h; simp [test_connection]
  · constructor
    · rintro ⟨lit, -, hl⟩
      by_contra hr
      rw [test_connection_other_code axis r (by omega)] at hl
      have hlen := congrArg List.length hl
      simp at hlen
    · intro hr
      interval_cases r
      · exact ⟨"OK", by simp, by simp [test_connection]⟩
      · exact ⟨"Error(0xFFFFFFFF)", by simp, by simp [test_connection]⟩
      · exact ⟨"Error(0x0)", by simp, by simp [test_connection]⟩

/-- Witness for the amended claim C16: the code 1 on the axis X prints the
all-ones error, and the code 7 prints no outcome. -/
theorem C16_test_connection_outcomes_witness :
    test_connection TMC_AxisEnum.TMC_X 1
      = ["Testing ", "X", " connection...", "Error(0xFFFFFFFF)", "\n"]
    ∧ test_connection TMC_AxisEnum.TMC_X 7 = ["Testing ", "X", " connection...", "\n"] :=
  ⟨((C16_test_connection_outcomes TMC_AxisEnum.TMC_X 1).2.1 rfl).trans (by decide),
    ((C16_test_connection_outcomes TMC_AxisEnum.TMC_X 7).2.2.2.1 (by decide)).trans
      (by decide)⟩

/-- The flag passed for an axis letter: set when the letter was given, or
when no letter at all was given, or when the letter was not given and the
uninitialised `print_axis` entry happens to hold a true value. -/
theorem print_flags_eq (seen stack : AxisEnum → Bool) (a : AxisEnum) :
    print_flags seen stack a
      = ((if seen a = true then true else stack a)
          || !(seen AxisEnum.X_AXIS || seen AxisEnum.Y_AXIS || seen AxisEnum.Z_AXIS
                || seen AxisEnum.E_AXIS)) := by
  unfold print_flags XYZE
  cases hx : seen AxisEnum.X_AXIS <;> cases hy : seen AxisEnum.Y_AXIS <;>
    cases hz : seen AxisEnum.Z_AXIS <;> cases he : seen AxisEnum.E_AXIS <;>
    cases a <;> simp [print_axis_loop, hx, hy, hz, he]

/-- Claim C17, evaluated on a command that gives only the letter X while the
uninitialised array `print_axis` holds true values. The flag for the group Y
is then set and the row of axis codes prints the Y stepper, although the
letter Y was not given and another letter was; had the array held false
values, only the X stepper would be printed. -/
theorem C17_unrequested_group_printed :
    print_flags (fun a => decide (a = AxisEnum.X_AXIS)) (fun _ => true) AxisEnum.Y_AXIS = true
    ∧ tmc_get_registers_row exampleTrinamic exampleRegs TMC_get_registers_enum.TMC_AXIS_CODES
        (print_flags (fun a => decide (a = AxisEnum.X_AXIS)) (fun _ => true) AxisEnum.X_AXIS)
        (print_flags (fun a => decide (a = AxisEnum.X_AXIS)) (fun _ => true) AxisEnum.Y_AXIS)
        (print_flags (fun a => decide (a = AxisEnum.X_AXIS)) (fun _ => true) AxisEnum.Z_AXIS)
        (print_flags (fun a => decide (a = AxisEnum.X_AXIS)) (fun _ => true) AxisEnum.E_AXIS)
      = ["\t", "X", "\t", "\t", "Y", "\t", "\n"]
    ∧ tmc_get_registers_row exampleTrinamic exampleRegs TMC_get_registers_enum.TMC_AXIS_CODES
        (print_flags (fun a => decide (a = AxisEnum.X_AXIS)) (fun _ => false) AxisEnum.X_AXIS)
        (print_flags (fun a => decide (a = AxisEnum.X_AXIS)) (fun _ => false) AxisEnum.Y_AXIS)
        (print_flags (fun a => decide (a = AxisEnum.X_AXIS)) (fun _ => false) AxisEnum.Z_AXIS)
        (print_flags (fun a => decide (a = AxisEnum.X_AXIS)) (fun _ => false) AxisEnum.E_AXIS)
      = ["\t", "X", "\t", "\n"] := by
  decide

/-- Claim C18, evaluated at a present setting below the step. With a
step-down of 50 mA, a firing step on a stepper set to 30 mA sets it to
65516 mA, which is higher; and from 800 mA, 22 consecutive warning polls of
an enabled driver bring the setting to 0 on the 21st poll and to 65486 mA on
the 22nd. -/
theorem C18_step_down_wraps_below_step :
    (monitor_tmc_driver (exampleConfig false) false Family.TMC2130
        { exampleStepper with val_mA := 30 } TMC_AxisEnum.TMC_X 5
        (exampleInput 0x4000000)).current = some 65516
    ∧ (30 : Nat) < 65516
    ∧ (run_polls (exampleConfig false) false Family.TMC2130 TMC_AxisEnum.TMC_X exampleStepper 0
        (List.replicate 22 (exampleInput 0x4000000))).map Outcome.current
      = [some 800, some 800, some 800, some 800, some 800, some 750, some 700, some 650,
          some 600, some 550, some 500, some 450, some 400, some 350, some 300, some 250,
          some 200, some 150, some 100, some 50, some 0, some 65486] := by
  decide

/-- Claim C19. For every 32-bit status word `w`, the TMC2130 decoder yields
`is_otpw` = bit 26, `is_ot` = bit 25, `is_s2ga` = bit 27, `is_s2gb` = bit 28
and the TMC2208 decoder yields bits 0, 1, 2 and 3; the stored `drv_status`
is `w`; and at every bit position the mask-then-shift test agrees with the
shift-then-mask test. -/
theorem C19_family_bit_positions (w : Nat) (hw : w < 4294967296) (d0 : TMC_driver_data) :
    ((get_driver_data Family.TMC2130 w d0).is_otpw = w.testBit 26
      ∧ (get_driver_data Family.TMC2130 w d0).is_ot = w.testBit 25
      ∧ (get_driver_data Family.TMC2130 w d0).is_s2ga = w.testBit 27
      ∧ (get_driver_data Family.TMC2130 w d0).is_s2gb = w.testBit 28
      ∧ (get_driver_data Family.TMC2130 w d0).drv_status = w)
    ∧ ((get_driver_data Family.TMC2208 w d0).is_otpw = w.testBit 0
      ∧ (get_driver_data Family.TMC2208 w d0).is_ot = w.testBit 1
      ∧ (get_driver_data Family.TMC2208 w d0).is_s2ga = w.testBit 2
      ∧ (get_driver_data Family.TMC2208 w d0).is_s2gb = w.testBit 3
      ∧ (get_driver_data Family.TMC2208 w d0).drv_status = w)
    ∧ ∀ k, toBool ((w &&& 2 ^ k) >>> k) = toBool ((w >>> k) &&& 1) := by
  refine ⟨⟨?_, ?_, ?_, ?_, ?_⟩, ⟨?_, ?_, ?_, ?_, ?_⟩, ?_⟩
  · show toBool ((u32 w &&& 0x4000000) >>> 26) = _
    rw [u32_of_lt hw]; exact toBool_mask_shift w 26
  · show toBool ((u32 w &&& 0x2000000) >>> 25) = _
    rw [u32_of_lt hw]; exact toBool_mask_shift w 25
  · show toBool ((u32 w >>> 27) &&& 0b1) = _
    rw [u32_of_lt hw]; exact toBool_shift_mask w 27
  · show toBool ((u32 w >>> 28) &&& 0b1) = _
    rw [u32_of_lt hw]; exact toBool_shift_mask w 28
  · exact u32_of_lt hw
  · show toBool ((u32 w &&& 0b1) >>> 0) = _
    rw [u32_of_lt hw]; exact toBool_mask_shift w 0
  · show toBool ((u32 w &&& 0b10) >>> 1) = _
    rw [u32_of_lt hw]; exact toBool_mask_shift w 1
  · show toBool ((u32 w >>> 2) &&& 0b1) = _
    rw [u32_of_lt hw]; exact toBool_shift_mask w 2
  · show toBool ((u32 w >>> 3) &&& 0b1) = _
    rw [u32_of_lt hw]; exact toBool_shift_mask w 3
  · exact u32_of_lt hw
  · intro k
    rw [toBool_mask_shift, toBool_shift_mask]

/-- Witness for claim C19 at the status word `0x0C000005`. -/
theorem C19_family_bit_positions_witness :
    (0x0C000005 : Nat) < 4294967296
    ∧ (get_driver_data Family.TMC2130 0x0C000005 exampleStack).is_otpw
        = (0x0C000005 : Nat).testBit 26
    ∧ (get_driver_data Family.TMC2208 0x0C000005 exampleStack).is_s2ga
        = (0x0C000005 : Nat).testBit 2 :=
  ⟨by decide,
    (C19_family_bit_positions 0x0C000005 (by decide) exampleStack).1.1,
    (C19_family_bit_positions 0x0C000005 (by decide) exampleStack).2.1.2.2.1⟩

/-- Once the latched flag is set, every later poll that returns leaves it
set. -/
theorem run_polls_flag_stays (cfg : Config) (rpt : Bool) (fam : Family) (axis : TMC_AxisEnum)
    (inps : List PollInput) :
    ∀ (st : Stepper) (cnt : Nat), st.flag_otpw = true →
      ∀ o ∈ run_polls cfg rpt fam axis st cnt inps,
        ∀ st1 c1 out, o = Outcome.returned st1 c1 out → st1.flag_otpw = true := by
  induction inps with
  | nil =>
    intro st cnt _ o ho
    simp [run_polls] at ho
  | cons inp rest ih =>
    intro st cnt hflag o hmem st1 c1 out heq
    cases hm : monitor_tmc_driver cfg rpt fam st axis cnt inp with
    | killed ko kmsg =>
      have hr : run_polls cfg rpt fam axis st cnt (inp :: rest) = [Outcome.killed ko kmsg] := by
        show (match monitor_tmc_driver cfg rpt fam st axis cnt inp with
          | Outcome.killed out msg => [Outcome.killed out msg]
          | Outcome.returned st1 cnt1 out =>
            Outcome.returned st1 cnt1 out :: run_polls cfg rpt fam axis st1 cnt1 rest) = _
        rw [hm]
      rw [hr] at hmem
      simp only [List.mem_singleton] at hmem
      rw [hmem] at heq
      exact Outcome.noConfusion heq
    | returned st2 c2 out2 =>
      rw [run_polls_cons_returned cfg rpt fam axis st cnt inp rest st2 c2 out2 hm] at hmem
      obtain ⟨_, _, hf⟩ := monitor_returned_spec cfg rpt fam st axis cnt inp st2 c2 out2 hm
      have hf2 : st2.flag_otpw = true := by
        rw [hf, hflag, Bool.or_true]
      simp only [List.mem_cons] at hmem
      rcases hmem with hmem | hmem
      · rw [hmem] at heq
        injection heq with e1 e2 e3
        rw [← e1]; exact hf2
      · exact ih st2 c2 hf2 o hmem st1 c1 out heq

/-- Claim C20. A monitor step that returns sets the latched flag when it
observes the warning, leaves it unchanged when it observes none, and never
clears it; and once the flag is set it is set after every poll of every
later sequence of polls. -/
theorem C20_latched_flag_never_cleared (cfg : Config) (rpt : Bool) (fam : Family)
    (st : Stepper) (axis : TMC_AxisEnum) (cnt : Nat) (inp : PollInput)
    (st1 : Stepper) (cnt1 : Nat) (out : List String)
    (h : monitor_tmc_driver cfg rpt fam st axis cnt inp = Outcome.returned st1 cnt1 out) :
    ((get_driver_data fam inp.DRV_STATUS inp.stack).is_otpw = true → st1.flag_otpw = true)
    ∧ ((get_driver_data fam inp.DRV_STATUS inp.stack).is_otpw = false →
        st1.flag_otpw = st.flag_otpw)
    ∧ (st.flag_otpw = true → st1.flag_otpw = true)
    ∧ (∀ (st0 : Stepper) (cnt0 : Nat) (inps : List PollInput), st0.flag_otpw = true →
        ∀ o ∈ run_polls cfg rpt fam axis st0 cnt0 inps,
          ∀ st2 c2 out2, o = Outcome.returned st2 c2 out2 → st2.flag_otpw = true) := by
  obtain ⟨_, _, hf⟩ := monitor_returned_spec cfg rpt fam st axis cnt inp st1 cnt1 out h
  refine ⟨?_, ?_, ?_, ?_⟩
  · intro hw; rw [hf, hw, Bool.true_or]
  · intro hw; rw [hf, hw, Bool.false_or]
  · intro hs; rw [hf, hs, Bool.or_true]
  · intro st0 cnt0 inps hs
    exact run_polls_flag_stays cfg rpt fam axis inps st0 cnt0 hs

/-- Witness for claim C20: a warning poll sets the flag of a stepper whose
flag was clear, and three later polls without warning leave it set. -/
theorem C20_latched_flag_never_cleared_witness :
    monitor_tmc_driver (exampleConfig false) false Family.TMC2130 exampleStepper
        TMC_AxisEnum.TMC_X 0 (exampleInput 0x4000000)
      = Outcome.returned { exampleStepper with flag_otpw := true } 1
          ["\n", "00:00", ": ", "X", " driver overtemperature warning! (", "800", "mA)\n"]
    ∧ ({ exampleStepper with flag_otpw := true } : Stepper).flag_otpw = true
    ∧ (run_polls (exampleConfig false) false Family.TMC2130 TMC_AxisEnum.TMC_X
        { exampleStepper with flag_otpw := true } 1
        (List.replicate 3 (exampleInput 0))).map Outcome.flag
      = [some true, some true, some true] :=
  ⟨by decide,
    (C20_latched_flag_never_cleared (exampleConfig false) false Family.TMC2130 exampleStepper
      TMC_AxisEnum.TMC_X 0 (exampleInput 0x4000000) { exampleStepper with flag_otpw := true } 1
      ["\n", "00:00", ": ", "X", " driver overtemperature warning! (", "800", "mA)\n"]
      (by decide)).1 (by decide),
    by decide⟩

/-! ## Reachable fault codes, axis labels and the hexadecimal rendering -/

/-- A word that has a bit of the mask set gives a non-zero mask test. -/
theorem toBool_and_of_testBit (x m k : Nat) (hm : m.testBit k = true)
    (hx : x.testBit k = true) : toBool (x &&& m) = true := by
  unfold toBool
  simp only [bne_iff_ne, ne_eq]
  intro h0
  have h := Nat.testBit_and x m k
  rw [h0, hx, hm, Nat.zero_testBit] at h
  exact Bool.noConfusion h

/-- In every family the decoded error flag is set whenever the decoded
over-temperature flag or the decoded pre-warning flag is set. -/
theorem error_covers_ot_and_otpw (fam : Family) (raw : Nat) (d : TMC_driver_data)
    (h : (get_driver_data fam raw d).is_ot = true ∨ (get_driver_data fam raw d).is_otpw = true) :
    (get_driver_data fam raw d).is_error = true := by
  cases fam with
  | TMC2130 =>
    have e : (get_driver_data Family.TMC2130 raw d).is_error
        = ((get_driver_data Family.TMC2130 raw d).is_otpw
            || (get_driver_data Family.TMC2130 raw d).is_ot
            || (get_driver_data Family.TMC2130 raw d).is_s2ga
            || (get_driver_data Family.TMC2130 raw d).is_s2gb) := boolOr4_eq _ _ _ _
    rw [e]
    rcases h with h | h <;> simp [h]
  | TMC2208 =>
    have e : (get_driver_data Family.TMC2208 raw d).is_error
        = ((get_driver_data Family.TMC2208 raw d).is_otpw
            || (get_driver_data Family.TMC2208 raw d).is_ot
            || (get_driver_data Family.TMC2208 raw d).is_s2ga
            || (get_driver_data Family.TMC2208 raw d).is_s2gb) := boolOr4_eq _ _ _ _
    rw [e]
    rcases h with h | h <;> simp [h]
  | TMC2660 =>
    show toBool (u32 raw &&& u8 0x1E) = true
    rcases h with h | h
    · have h1 : (u32 raw).testBit 1 = true := (toBool_mask_shift (u32 raw) 1).symm.trans h
      exact toBool_and_of_testBit (u32 raw) (u8 0x1E) 1 (by decide) h1
    · have h1 : (u32 raw).testBit 2 = true := (toBool_mask_shift (u32 raw) 2).symm.trans h
      exact toBool_and_of_testBit (u32 raw) (u8 0x1E) 2 (by decide) h1

/-- Claim C21. For every family and status word, in a monitor step that
returns: the decoded error flag is set whenever over-temperature or the
pre-warning is set, the counter after the update is 0 whenever the
pre-warning is absent, and so the fault code is `E`, `F` or nothing, and that
code is what the summary of the step carries in reporting mode. -/
theorem C21_fault_code_is_E_F_or_nothing (cfg : Config) (rpt : Bool) (fam : Family)
    (st : Stepper) (axis : TMC_AxisEnum) (cnt : Nat) (inp : PollInput)
    (st1 : Stepper) (cnt1 : Nat) (out : List String)
    (h : monitor_tmc_driver cfg rpt fam st axis cnt inp = Outcome.returned st1 cnt1 out) :
    (((get_driver_data fam inp.DRV_STATUS inp.stack).is_ot = true
        ∨ (get_driver_data fam inp.DRV_STATUS inp.stack).is_otpw = true) →
      (get_driver_data fam inp.DRV_STATUS inp.stack).is_error = true)
    ∧ ((get_driver_data fam inp.DRV_STATUS inp.stack).is_otpw = false → cnt1 = 0)
    ∧ ∃ code, (code = ["E"] ∨ code = ["F"] ∨ code = [])
        ∧ fault_code (get_driver_data fam inp.DRV_STATUS inp.stack) cnt1 st1.flag_otpw = code
        ∧ (rpt = true →
            ∃ pre, out = pre ++ (summary_head fam axis inp
                (get_driver_data fam inp.DRV_STATUS inp.stack).drv_status ++ code ++ ["\t"])) := by
  have hcov := error_covers_ot_and_otpw fam inp.DRV_STATUS inp.stack
  obtain ⟨h1, _, _⟩ := monitor_returned_spec cfg rpt fam st axis cnt inp st1 cnt1 out h
  have hout := monitor_returned_output cfg rpt fam st axis cnt inp st1 cnt1 out h
  have hzero : (get_driver_data fam inp.DRV_STATUS inp.stack).is_otpw = false → cnt1 = 0 := by
    intro hw
    rw [hw] at h1
    rw [h1]
    simp only [Bool.false_eq_true, if_false]
    split_ifs <;> omega
  refine ⟨hcov, hzero, fault_code (get_driver_data fam inp.DRV_STATUS inp.stack) cnt1
    st1.flag_otpw, ?_, rfl, ?_⟩
  · unfold fault_code
    by_cases he : (get_driver_data fam inp.DRV_STATUS inp.stack).is_error = true
    · rw [if_pos he]; exact Or.inl rfl
    · rw [if_neg he]
      have hot : ¬ (get_driver_data fam inp.DRV_STATUS inp.stack).is_ot = true :=
        fun hx => he (hcov (Or.inl hx))
      have hwn : ¬ (get_driver_data fam inp.DRV_STATUS inp.stack).is_otpw = true :=
        fun hx => he (hcov (Or.inr hx))
      rw [if_neg hot, if_neg hwn]
      have hc : cnt1 = 0 := hzero (by simpa using hwn)
      rw [if_neg (by omega : ¬ cnt1 > 0)]
      by_cases hf : st1.flag_otpw = true
      · rw [if_pos hf]; exact Or.inr (Or.inl rfl)
      · rw [if_neg hf]; exact Or.inr (Or.inr rfl)
  · intro hr
    rw [if_pos hr] at hout
    exact ⟨_, hout⟩

/-- Witness for claim C21: with `STOP_ON_ERROR` disabled and reporting on, a
warning poll entered with counter 3 reports the code `E`, not `W` and not a
digit. -/
theorem C21_fault_code_is_E_F_or_nothing_witness :
    monitor_tmc_driver (exampleConfig false) true Family.TMC2130 exampleStepper
        TMC_AxisEnum.TMC_X 3 (exampleInput 0x4000000)
      = Outcome.returned { exampleStepper with flag_otpw := true } 4
          ["X", ":0", " |0b", "0", "| ", "E", "\t"]
    ∧ ((get_driver_data Family.TMC2130 (exampleInput 0x4000000).DRV_STATUS
            (exampleInput 0x4000000).stack).is_ot = true
        ∨ (get_driver_data Family.TMC2130 (exampleInput 0x4000000).DRV_STATUS
            (exampleInput 0x4000000).stack).is_otpw = true)
    ∧ (get_driver_data Family.TMC2130 (exampleInput 0x4000000).DRV_STATUS
        (exampleInput 0x4000000).stack).is_error = true :=
  ⟨by decide, Or.inr (by decide),
    (C21_fault_code_is_E_F_or_nothing (exampleConfig false) true Family.TMC2130 exampleStepper
      TMC_AxisEnum.TMC_X 3 (exampleInput 0x4000000) { exampleStepper with flag_otpw := true } 4
      ["X", ":0", " |0b", "0", "| ", "E", "\t"] (by decide)).1 (Or.inr (by decide))⟩

/-- Claim C22, evaluated on the call table and on a machine with the steppers
X and X2. The calls for X2, Y2 and Z2 pass the labels of X, Y and Z, so two
distinct axes are reported under one label: in a poll cycle in which only X2
carries the pre-warning, the warning line and both summaries are all
labelled `X`. Each stepper does have its own counter: after the call the
counter of X is 0 and that of X2 is 1. -/
theorem C22_second_steppers_reported_under_first_label :
    monitor_calls.map (fun c => (c.1, _tmc_say_axis c.2.1))
      = [(StepperId.X, ["X"]), (StepperId.Y, ["Y"]), (StepperId.Z, ["Z"]),
          (StepperId.X2, ["X"]), (StepperId.Y2, ["Y"]), (StepperId.Z2, ["Z"]),
          (StepperId.E0, ["E0"]), (StepperId.E1, ["E1"]), (StepperId.E2, ["E2"]),
          (StepperId.E3, ["E3"]), (StepperId.E4, ["E4"])]
    ∧ (monitor_tmc_driver_all (exampleConfig false) exampleDualMachine exampleMonitor
        (exampleDualCall true)).output
      = ["X", ":0", " |0b", "0", "| ", "\t",
          "\n", "00:00", ": ", "X", " driver overtemperature warning! (", "800", "mA)\n",
          "X", ":0", " |0b", "0", "| ", "E", "\t", "\n"]
    ∧ (monitor_tmc_driver_all (exampleConfig false) exampleDualMachine exampleMonitor
        (exampleDualCall true)).state.otpw_cnt StepperId.X = 0
    ∧ (monitor_tmc_driver_all (exampleConfig false) exampleDualMachine exampleMonitor
        (exampleDualCall true)).state.otpw_cnt StepperId.X2 = 1 := by
  decide

/-- The nibble expression of `print_32b_hex` is the value modulo 16. -/
theorem nibble_eq (x : Nat) : u8 x &&& 0xF = x % 16 := by
  have h := Nat.and_pow_two_sub_one_eq_mod (x % 256) 4
  have h2 : x % 256 % 2 ^ 4 = x % 16 := Nat.mod_mod_of_dvd x (by decide : 2 ^ 4 ∣ 256)
  rw [h2] at h
  exact h

theorem hex_value_printHEX (n : Nat) (h : n < 16) : hex_value (printHEX n) = some n := by
  interval_cases n <;> decide

/-- The chunks of `print_32b_hex`: the eight nibbles from bit 28 down to bit 0,
a colon after each of the first three pairs, and the end of line. -/
theorem print_32b_hex_eq (w : Nat) :
    print_32b_hex w
      = [printHEX ((w >>> 28) % 16), printHEX ((w >>> 24) % 16), ":",
          printHEX ((w >>> 20) % 16), printHEX ((w >>> 16) % 16), ":",
          printHEX ((w >>> 12) % 16), printHEX ((w >>> 8) % 16), ":",
          printHEX ((w >>> 4) % 16), printHEX (w % 16), "\n"] := by
  have e : print_32b_hex w
      = [printHEX (u8 (w >>> 28) &&& 0xF), printHEX (u8 (w >>> 24) &&& 0xF), ":",
          printHEX (u8 (w >>> 20) &&& 0xF), printHEX (u8 (w >>> 16) &&& 0xF), ":",
          printHEX (u8 (w >>> 12) &&& 0xF), printHEX (u8 (w >>> 8) &&& 0xF), ":",
          printHEX (u8 (w >>> 4) &&& 0xF), printHEX (u8 w &&& 0xF), "\n"] := rfl
  rw [e]
  simp only [nibble_eq]

/-- Parsing the rendering of a 32-bit word gives the word back. -/
theorem parse_print_32b_hex (w : Nat) (hw : w < 4294967296) :
    spec_parse_32b_hex (print_32b_hex w) = some w := by
  rw [print_32b_hex_eq]
  have e7 := hex_value_printHEX ((w >>> 28) % 16) (Nat.mod_lt _ (by decide))
  have e6 := hex_value_printHEX ((w >>> 24) % 16) (Nat.mod_lt _ (by decide))
  have e5 := hex_value_printHEX ((w >>> 20) % 16) (Nat.mod_lt _ (by decide))
  have e4 := hex_value_printHEX ((w >>> 16) % 16) (Nat.mod_lt _ (by decide))
  have e3 := hex_value_printHEX ((w >>> 12) % 16) (Nat.mod_lt _ (by decide))
  have e2 := hex_value_printHEX ((w >>> 8) % 16) (Nat.mod_lt _ (by decide))
  have e1 := hex_value_printHEX ((w >>> 4) % 16) (Nat.mod_lt _ (by decide))
  have e0 := hex_value_printHEX (w % 16) (Nat.mod_lt _ (by decide))
  simp only [spec_parse_32b_hex, e7, e6, e5, e4, e3, e2, e1, e0, and_self, if_true]
  congr 1
  unfold hex_number
  simp only [Nat.shiftRight_eq_div_pow]
  norm_num
  omega

/-- Claim C23. For every 32-bit word `w`, `print_32b_hex` emits the eight
hexadecimal digits of `w` in four groups of two, most significant byte first
and high nibble before low nibble, with a colon between groups and the end
of line after the last; each digit chunk is one hexadecimal digit whose
value is the nibble it stands for; parsing the text gives back `w`; and two
32-bit words with the same text are equal. -/
theorem C23_print_32b_hex_lossless (w : Nat) (hw : w < 4294967296) :
    print_32b_hex w
      = [printHEX ((w >>> 28) % 16), printHEX ((w >>> 24) % 16), ":",
          printHEX ((w >>> 20) % 16), printHEX ((w >>> 16) % 16), ":",
          printHEX ((w >>> 12) % 16), printHEX ((w >>> 8) % 16), ":",
          printHEX ((w >>> 4) % 16), printHEX (w % 16), "\n"]
    ∧ (∀ k, hex_value (printHEX ((w >>> k) % 16)) = some ((w >>> k) % 16))
    ∧ spec_parse_32b_hex (print_32b_hex w) = some w
    ∧ ∀ v, v < 4294967296 → print_32b_hex v = print_32b_hex w → v = w := by
  refine ⟨print_32b_hex_eq w, ?_, parse_print_32b_hex w hw, ?_⟩
  · intro k
    exact hex_value_printHEX _ (Nat.mod_lt _ (by decide))
  · intro v hv heq
    have h1 := parse_print_32b_hex v hv
    rw [heq, parse_print_32b_hex w hw] at h1
    exact (Option.some.inj h1).symm

/-- Witness for claim C23 at the word `0xDEADBEEF`. -/
theorem C23_print_32b_hex_lossless_witness :
    (0xDEADBEEF : Nat) < 4294967296
    ∧ print_32b_hex 0xDEADBEEF
      = ["D", "E", ":", "A", "D", ":", "B", "E", ":", "E", "F", "\n"]
    ∧ spec_parse_32b_hex (print_32b_hex 0xDEADBEEF) = some 0xDEADBEEF :=
  ⟨by decide, by decide,
    (C23_print_32b_hex_lossless 0xDEADBEEF (by decide)).2.2.1⟩

end TmcUtil
